import Mathlib

/-!
Shallow embedding of the freeciv savegame2 save/load engine
(src/client/savegame2.c) and verification of its specification.

Modelling conventions used throughout:

* The hierarchical keyed text store (`struct section_file`, an external
  collaborator) is modelled as an ordered list of (key, value) entries.
  A key is the printf template together with its integer arguments, so
  `secfile_insert_str(file, line, "map.t%04d", y)` becomes an entry with
  key `⟨"map.t%04d", [y]⟩`.  Composite paths that C builds with an
  intermediate `%s` buffer (e.g. `"player%d.c%d"` then `"%s.y"`) are
  modelled with the substitution performed structurally
  (`⟨"player%d.c%d.y", [plrno, i]⟩`).
* The global mutable state touched by the saver (`sg_success`, the
  `struct savedata`) is threaded explicitly as a `Savedata` record; the
  frozen game snapshot it reads (`game`, `map`, the players) is a
  read-only `World` record.
* External collaborators that the spec declares out of scope
  (settings_game_save, script_server_state_save, the per-AI hooks,
  rgbcolor_save) are modelled at their interface: they append a block of
  entries supplied by the snapshot.
* C enums referenced from the code but declared in headers outside the
  reviewed sources are modelled as Lean inductives / named constants.
-/

/-- A value stored in a section file entry. -/
inductive SecValue where
  | int (n : Int)
  | bool (b : Bool)
  | str (s : String)
  | strvec (v : List String)
deriving DecidableEq, Repr

/-- A section-file key: the printf path template, its integer arguments
and its string arguments (for the rare `%s` path pieces that stay
symbolic, e.g. specialist rule names). -/
structure SecKey where
  template : String
  args : List Int
  sargs : List String
deriving DecidableEq, Repr

/-- Shorthand for the common key form without string arguments. -/
def key2 (t : String) (a : List Int) : SecKey := ⟨t, a, []⟩

/-- The document: an ordered list of entries, as materialised by the
underlying store. -/
abbrev SecFile := List (SecKey × SecValue)

/-- secfile_insert_* : all typed inserts append one entry at the end. -/
def secfile_insert (f : SecFile) (k : SecKey) (v : SecValue) : SecFile :=
  f ++ [(k, v)]

/-- secfile_replace_str: replace the value at the key if present,
otherwise insert the entry. -/
def secfile_replace_str (f : SecFile) (s : String) (k : SecKey) : SecFile :=
  if f.any (fun e => e.1 = k) then
    f.map (fun e => if e.1 = k then (k, SecValue.str s) else e)
  else f ++ [(k, SecValue.str s)]

/-- fc_isprint on `c & 0x7f` (C locale printable range). -/
def fc_isprint (c : Char) : Bool :=
  32 ≤ c.toNat % 128 && c.toNat % 128 ≤ 126

/-- static const char hex_chars[] = "0123456789abcdef"; -/
def hex_chars : List Char := "0123456789abcdef".toList

/-- static const char num_chars[] =
  "0123456789abcdefghijklmnopqrstuvwxyzABCDEFGHIJKLMNOPQRSTUVWXYZ_-+"; -/
def num_chars : List Char :=
  "0123456789abcdefghijklmnopqrstuvwxyzABCDEFGHIJKLMNOPQRSTUVWXYZ_-+".toList

/-- num2char: converts a number to a single character of `num_chars`. -/
def num2char (num : Nat) : Char :=
  if num ≥ num_chars.length then '?' else num_chars.getD num '?'

/-- enum unit_orders (common headers; order of declaration as used by
the savegame code). -/
inductive unit_orders where
  | ORDER_MOVE
  | ORDER_FULL_MP
  | ORDER_ACTIVITY
  | ORDER_BUILD_CITY
  | ORDER_DISBAND
  | ORDER_BUILD_WONDER
  | ORDER_TRADE_ROUTE
  | ORDER_HOMECITY
  | ORDER_LAST
deriving DecidableEq, Fintype, Repr

/-- enum direction8 (numberpad directions). -/
inductive direction8 where
  | DIR8_NORTH
  | DIR8_SOUTH
  | DIR8_EAST
  | DIR8_WEST
  | DIR8_NORTHEAST
  | DIR8_NORTHWEST
  | DIR8_SOUTHEAST
  | DIR8_SOUTHWEST
deriving DecidableEq, Fintype, Repr

/-- enum unit_activity (common headers). -/
inductive unit_activity where
  | ACTIVITY_IDLE
  | ACTIVITY_POLLUTION
  | ACTIVITY_OLD_ROAD
  | ACTIVITY_MINE
  | ACTIVITY_IRRIGATE
  | ACTIVITY_FORTIFIED
  | ACTIVITY_FORTRESS
  | ACTIVITY_SENTRY
  | ACTIVITY_OLD_RAILROAD
  | ACTIVITY_PILLAGE
  | ACTIVITY_GOTO
  | ACTIVITY_EXPLORE
  | ACTIVITY_TRANSFORM
  | ACTIVITY_AIRBASE
  | ACTIVITY_FORTIFYING
  | ACTIVITY_FALLOUT
  | ACTIVITY_BASE
  | ACTIVITY_GEN_ROAD
  | ACTIVITY_CONVERT
  | ACTIVITY_UNKNOWN
  | ACTIVITY_PATROL_UNUSED
  | ACTIVITY_LAST
deriving DecidableEq, Fintype, Repr

open unit_orders direction8 unit_activity

/-- order2char: character identifier for an order (savegame2.c). The
`ORDER_LAST` case falls through to the `fc_assert(FALSE); return '?'`
tail of the C function. -/
def order2char : unit_orders → Char
  | ORDER_MOVE => 'm'
  | ORDER_FULL_MP => 'w'
  | ORDER_ACTIVITY => 'a'
  | ORDER_BUILD_CITY => 'b'
  | ORDER_DISBAND => 'd'
  | ORDER_BUILD_WONDER => 'u'
  | ORDER_TRADE_ROUTE => 't'
  | ORDER_HOMECITY => 'h'
  | ORDER_LAST => '?'

/-- dir2char: numberpad character for a direction (savegame2.c). -/
def dir2char : direction8 → Char
  | DIR8_NORTH => '8'
  | DIR8_SOUTH => '2'
  | DIR8_EAST => '6'
  | DIR8_WEST => '4'
  | DIR8_NORTHEAST => '9'
  | DIR8_NORTHWEST => '7'
  | DIR8_SOUTHEAST => '3'
  | DIR8_SOUTHWEST => '1'

/-- activity2char: character identifier for an activity (savegame2.c).
`ACTIVITY_UNKNOWN` and `ACTIVITY_PATROL_UNUSED` explicitly return '?';
`ACTIVITY_LAST` falls through to the `fc_assert(FALSE); return '?'`
tail. -/
def activity2char : unit_activity → Char
  | ACTIVITY_IDLE => 'w'
  | ACTIVITY_POLLUTION => 'p'
  | ACTIVITY_OLD_ROAD => 'r'
  | ACTIVITY_MINE => 'm'
  | ACTIVITY_IRRIGATE => 'i'
  | ACTIVITY_FORTIFIED => 'f'
  | ACTIVITY_FORTRESS => 't'
  | ACTIVITY_SENTRY => 's'
  | ACTIVITY_OLD_RAILROAD => 'l'
  | ACTIVITY_PILLAGE => 'e'
  | ACTIVITY_GOTO => 'g'
  | ACTIVITY_EXPLORE => 'x'
  | ACTIVITY_TRANSFORM => 'o'
  | ACTIVITY_AIRBASE => 'a'
  | ACTIVITY_FORTIFYING => 'y'
  | ACTIVITY_FALLOUT => 'u'
  | ACTIVITY_BASE => 'b'
  | ACTIVITY_GEN_ROAD => 'R'
  | ACTIVITY_CONVERT => 'c'
  | ACTIVITY_UNKNOWN => '?'
  | ACTIVITY_PATROL_UNUSED => '?'
  | ACTIVITY_LAST => '?'

/-- Number of real activity values, i.e. the integer value of the
`ACTIVITY_LAST` enum member. -/
def ACTIVITY_LAST_val : Nat := 21

/- =======================================================================
   Nibble-packing helpers (sg_special_get / sg_bases_get / sg_roads_get).
   Each C function runs `for (i = 0; i < 4; i++)` over the 4-entry index
   window, `break`s at the first sentinel entry, and ORs bit `1 << i`
   into `bin` when the bit-set contains the windowed value.  The loop is
   embedded as structural recursion over the explicit index list
   [0, 1, 2, 3].
   ======================================================================= -/

/-- Loop of sg_special_get: sentinel is `sp >= S_LAST`. -/
def sg_special_get_go (sLast : Nat) (specials : Nat → Bool) (index : Fin 4 → Nat) :
    Nat → List (Fin 4) → Nat
  | bin, [] => bin
  | bin, i :: rest =>
    if sLast ≤ index i then bin
    else sg_special_get_go sLast specials index
      (if specials (index i) then bin ||| (1 <<< i.val) else bin) rest

/-- sg_special_get: packs four specials into one hex character.
`specials` is the tile's `bv_special` bit-set (membership as in
`contains_special`); `index` the 4-entry window; `sLast` the external
constant `S_LAST`. -/
def sg_special_get (sLast : Nat) (specials : Nat → Bool) (index : Fin 4 → Nat) : Char :=
  hex_chars.getD (sg_special_get_go sLast specials index 0 [0, 1, 2, 3]) ' '

/-- Loop of sg_bases_get: sentinel is `base < 0`. -/
def sg_bases_get_go (bases : Nat → Bool) (index : Fin 4 → Int) :
    Nat → List (Fin 4) → Nat
  | bin, [] => bin
  | bin, i :: rest =>
    if index i < 0 then bin
    else sg_bases_get_go bases index
      (if bases (index i).toNat then bin ||| (1 <<< i.val) else bin) rest

/-- sg_bases_get: packs four base types into one hex character.
`bases` is the tile's `bv_bases` bit-set (`BV_ISSET`). -/
def sg_bases_get (bases : Nat → Bool) (index : Fin 4 → Int) : Char :=
  hex_chars.getD (sg_bases_get_go bases index 0 [0, 1, 2, 3]) ' '

/-- Loop of sg_roads_get: sentinel is `road < 0`. -/
def sg_roads_get_go (roads : Nat → Bool) (index : Fin 4 → Int) :
    Nat → List (Fin 4) → Nat
  | bin, [] => bin
  | bin, i :: rest =>
    if index i < 0 then bin
    else sg_roads_get_go roads index
      (if roads (index i).toNat then bin ||| (1 <<< i.val) else bin) rest

/-- sg_roads_get: packs four road types into one hex character.
`roads` is the tile's `bv_roads` bit-set (`BV_ISSET`). -/
def sg_roads_get (roads : Nat → Bool) (index : Fin 4 → Int) : Char :=
  hex_chars.getD (sg_roads_get_go roads index 0 [0, 1, 2, 3]) ' '

/-- bin2ascii_hex(value, halfbyte_wanted):
`hex_chars[(value >> (halfbyte * 4)) & 0xf]`. -/
def bin2ascii_hex (value : Nat) (halfbyte : Nat) : Char :=
  hex_chars.getD ((value >>> (halfbyte * 4)) &&& 0xf) ' '

/- =======================================================================
   Constants from external headers referenced by savegame2.c.
   ======================================================================= -/

/-- Modelled from the spec: worklist capacity bound `MAX_LEN_WORKLIST`
(common/worklist.h, not among the reviewed sources); the asserted upper
bound for the padded tabular worklist width. -/
def MAX_LEN_WORKLIST : Nat := 64

/-- Modelled from the spec: `MAX_NUM_ITEMS` (utility/shared.h), the
capacity of improvement/technology vectors. -/
def MAX_NUM_ITEMS : Nat := 200

/-- Modelled from the spec: `MAX_TRADE_ROUTES` (common/city.h). -/
def MAX_TRADE_ROUTES : Nat := 4

/-- Modelled from the spec: `CITYO_LAST` (common/city.h city options). -/
def CITYO_LAST : Nat := 3

/-- Modelled from the spec: `NUM_SS_STRUCTURALS` (common/spaceship.h). -/
def NUM_SS_STRUCTURALS : Nat := 32

/-- Modelled from the spec: `SSHIP_NONE` (common/spaceship.h). -/
def SSHIP_NONE : Int := 0

/-- Modelled from the spec: `SSHIP_LAUNCHED` (common/spaceship.h). -/
def SSHIP_LAUNCHED : Int := 2

/-- Modelled from the spec: `BASE_NONE` (common/base.h). -/
def BASE_NONE : Int := -1

/-- Modelled from the spec: `ROAD_NONE` (common/road.h). -/
def ROAD_NONE : Int := -1

/-- Modelled from the spec: `A_NONE` (common/tech.h). -/
def A_NONE : Int := 0

/-- Modelled from the spec: `A_UNSET = A_LAST + 1` (common/tech.h,
`A_LAST = MAX_NUM_ITEMS`). -/
def A_UNSET : Int := 201

/-- Modelled from the spec: `A_FUTURE = A_LAST + 2` (common/tech.h). -/
def A_FUTURE : Int := 202

/-- Modelled from the spec: `A_UNKNOWN = A_LAST + 3` (common/tech.h). -/
def A_UNKNOWN : Int := 203

/-- Modelled from the spec: `RESOURCE_NONE_IDENTIFIER` (common/terrain.h). -/
def RESOURCE_NONE_IDENTIFIER : Char := ' '

/-- Modelled from the spec: `I_NEVER`, the "never built" turn sentinel
(common/improvement.h); only its use as a threshold matters here. -/
def I_NEVER : Int := -1000

/-- The version id of the current format: last element of `compat[]`. -/
def compat_current_version : Int := 20

/-- static const char savefile_options_default[] = " +version2"; -/
def savefile_options_default : String := " +version2"

/- =======================================================================
   Decimal rendering of `%d` tokens (fc_snprintf "%d").
   ======================================================================= -/

/-- Digit character for a value below ten. -/
def natDigit (d : Nat) : Char := Char.ofNat (48 + d)

/-- Decimal digit list of a natural number, most significant first
(the output of `sprintf("%d", n)` for `n ≥ 0`). -/
def decList (n : Nat) : List Char :=
  if _h : n < 10 then [natDigit n] else decList (n / 10) ++ [natDigit (n % 10)]
termination_by n
decreasing_by exact Nat.div_lt_self (by omega) (by omega)

/-- `sprintf("%d", n)` for a possibly negative integer. -/
def intDec (n : Int) : List Char :=
  if n < 0 then '-' :: decList n.natAbs else decList n.toNat

/-- Specification-side joining of tokens with a single comma between
consecutive tokens (no leading or trailing separator). -/
def commaJoin : List (List Char) → List Char
  | [] => []
  | t :: ts => t ++ ts.flatMap (fun u => ',' :: u)

/- =======================================================================
   Domain records (the frozen game snapshot read by the saver).
   ======================================================================= -/

/-- enum server_states as far as the saver distinguishes them. -/
inductive server_states where
  | S_S_INITIAL
  | S_S_RUNNING
  | S_S_OVER
deriving DecidableEq, Repr

/-- server_states_name. -/
def server_states_name : server_states → String
  | .S_S_INITIAL => "S_S_INITIAL"
  | .S_S_RUNNING => "S_S_RUNNING"
  | .S_S_OVER => "S_S_OVER"

/-- A ruleset resource (only the fields read by resource2char). -/
structure Resource where
  name : String
  identifier : Char
deriving DecidableEq, Repr

/-- One row of the diplomatic-state matrix. -/
structure DiplState where
  dstype : Int
  max_state : Int
  first_contact_turn : Int
  turns_left : Int
  has_reason_to_cancel : Int
  contact_turns_left : Int

/-- struct player_spaceship (saved fields). -/
structure Spaceship where
  state : Int
  structurals : Int
  components : Int
  modules : Int
  fuel : Int
  propulsion : Int
  habitation : Int
  life_support : Int
  solar_panels : Int
  structure_bits : Nat → Bool
  launch_year : Int

/-- The activity-target union together with its type tag. -/
inductive ActivityTarget where
  | special (spe : Int)
  | base (base : Int)
  | road (road : Int)

/-- One queued unit order. -/
structure UnitOrder where
  order : unit_orders
  dir : direction8
  activity : unit_activity
  base : Nat
  road : Nat

/-- struct unit (saved fields; the name `Unit` is taken by the Lean core,
hence `FcUnit`).  `tile_idx` is `tile_index(unit_tile(u))`. -/
structure FcUnit where
  id : Nat
  tile_idx : Nat
  facing : direction8
  nationality : Nat
  veteran : Int
  hp : Int
  homecity : Int
  type_by_name : String
  activity : unit_activity
  activity_count : Int
  activity_tgt : ActivityTarget
  changed_from : Int
  changed_from_count : Int
  changed_from_tgt : ActivityTarget
  done_moving : Bool
  moves_left : Int
  fuel : Int
  birth_turn : Int
  battlegroup : Int
  goto_tile : Option Nat
  ai_controlled : Bool
  ai_entries : SecFile
  moved : Bool
  paradropped : Bool
  transported_by : Option Nat
  has_orders : Bool
  orders_list : List UnitOrder
  orders_index : Int
  orders_repeat : Bool
  orders_vigilant : Bool
  last_order_move_is_safe : Bool

/-- struct universal at its saving interface:
universal_type_rule_name / universal_rule_name. -/
structure Universal where
  kind : String
  name : String
deriving DecidableEq, Repr

/-- universal_type_rule_name (collaborator accessor). -/
def universal_type_rule_name (u : Universal) : String := u.kind

/-- universal_rule_name (collaborator accessor). -/
def universal_rule_name (u : Universal) : String := u.name

/-- struct city (saved fields).  `units_supported` lists unit ids. -/
structure City where
  id : Nat
  tile_idx : Nat
  original : Int
  size : Int
  specialists : Nat → Int
  trade : Nat → Int
  food_stock : Int
  shield_stock : Int
  airlift : Int
  was_happy : Bool
  turn_plague : Int
  anarchy : Int
  rapture : Int
  steal : Int
  turn_founded : Int
  did_buy : Bool
  did_sell : Bool
  turn_last_built : Int
  cname : String
  production : Universal
  changed_from : Universal
  before_change_shields : Int
  caravan_shields : Int
  disbanded_shields : Int
  last_turns_shield_surplus : Int
  city_radius_sq : Int
  built_turn : Nat → Int
  worklist : List Universal
  city_options : Nat → Bool
  ai_entries : SecFile
  citizens : Nat → Int
  units_supported : List Nat

/-- struct player (saved fields).  `plrno` is both player_number and
player_index, which coincide for the saved players. -/
structure Player where
  plrno : Nat
  pname : String
  username : String
  ranked_username : String
  delegation : Option String
  rgb : Option (Int × Int × Int)
  nation : String
  team : Option Int
  government : String
  target_government : Option String
  city_style : String
  is_male : Bool
  is_alive : Bool
  ai_controlled : Bool
  diplstate : Nat → DiplState
  embassy : Nat → Bool
  shared_vision : Nat → Bool
  ai_love : Nat → Int
  ai_entries : SecFile
  skill_level : Int
  barbarian_type : Int
  gold : Int
  tax : Int
  science : Int
  luxury : Int
  tech_goal : Int
  bulbs_last_turn : Int
  techs_researched : Int
  future_tech : Int
  bulbs_researching_saved : Int
  researching_saved : Int
  bulbs_researched : Int
  researching : Int
  got_tech : Bool
  invention_known : Nat → Bool
  got_first_city : Bool
  revolution_finishes : Int
  units_built : Int
  units_killed : Int
  units_lost : Int
  spaceship : Spaceship
  wonder_lost : Nat → Bool
  cities : List City
  units : List FcUnit
  attribute_block : Option (List Nat)

/-- struct tile (read fields).  `units` lists the ids of the occupying
units in the tile's unit-list order; `known_by` is `map_is_known` per
player index. -/
structure Tile where
  terrain : Option String
  special : Nat → Bool
  bases : Nat → Bool
  roads : Nat → Bool
  resource : Option Resource
  spec_sprite : Option String
  label : Option String
  owner : Option Nat
  claimer : Option Nat
  worked : Option Nat
  units : List Nat
  known_by : Nat → Bool

/-- The frozen snapshot of the live game read during a save: the map,
`game`, the rule tables and the external collaborators' contributions.
`ord_city_init` / `ord_map_init` hold the units' `server.ord_city` /
`server.ord_map` fields (junk) before `unit_ordering_calc` runs. -/
structure World where
  xsize : Nat
  ysize : Nat
  map_is_empty : Bool
  tiles : Nat → Nat → Tile
  game_was_started : Bool
  is_new_game : Bool
  server_state : server_states
  scenario_is_scenario : Bool
  scenario_name : String
  scenario_description : String
  scenario_players : Bool
  scenario_startpos_nations : Bool
  major_version : Int
  minor_version : Int
  patch_version : Int
  meta_patches : String
  meta_addr_port : String
  game_identifier : String
  serverid : String
  skill_level : Int
  phase_mode : Int
  phase : Int
  turn : Int
  year : Int
  year_0_hack : Bool
  globalwarming : Int
  heating : Int
  warminglevel : Int
  nuclearwinter : Int
  cooling : Int
  coolinglevel : Int
  global_advances : Nat → Bool
  num_tech_types : Nat
  advance_names : List String
  advance_rule_name : Int → String
  improvement_names : List String
  improvement_is_great_wonder : Nat → Bool
  great_wonder_destroyed : Nat → Bool
  improvement_is_wonder : Nat → Bool
  trait_names : List String
  special_names : List String
  s_old_river : Nat
  base_names : List String
  road_names : List String
  unit_activity_name : Nat → String
  specialist_names : List String
  citizen_nationality : Bool
  fc_rand_is_init : Bool
  rstate_j : Int
  rstate_k : Int
  rstate_x : Int
  rstate_table : Nat → String
  script_entries : SecFile
  settings_entries : SecFile
  identity_number : Int
  shuffled_order : List Nat
  players : List Player
  player_slot_max_used_number : Nat
  player_slot_used : Nat → Bool
  mapimg_defs : List String
  ord_city_init : Nat → Nat
  ord_map_init : Nat → Nat

/-- `S_LAST`: the size of the specials order table. -/
def S_LAST (w : World) : Nat := w.special_names.length

/-- game.control.num_base_types. -/
def num_base_types (w : World) : Nat := w.base_names.length

/-- game.control.num_road_types. -/
def num_road_types (w : World) : Nat := w.road_names.length

/-- improvement_count(). -/
def improvement_count (w : World) : Nat := w.improvement_names.length

/-- The whole-map iteration order: by tile index, i.e. native positions
row-major with x fastest. -/
def map_tile_list (w : World) : List (Nat × Nat) :=
  (List.range w.ysize).flatMap (fun y => (List.range w.xsize).map (fun x => (x, y)))

/- =======================================================================
   The mutable per-operation state: sg_success and struct savedata.
   ======================================================================= -/

/-- The static `sg_success` flag together with `struct savedata`,
threaded explicitly through the staged save. -/
structure Savedata where
  sg_success : Bool
  file : SecFile
  secfile_options : String
  save_reason : String
  scenario : Bool
  save_players : Bool
deriving DecidableEq, Repr

/-- savedata_new: calloc'd struct with the caller-set fields. -/
def savedata_new (file : SecFile) (save_reason : String) (scenario : Bool) : Savedata :=
  { sg_success := false, file := file, secfile_options := "",
    save_reason := save_reason, scenario := scenario, save_players := false }

/-- Entry shorthand: integer value. -/
def eInt (t : String) (a : List Int) (n : Int) : SecKey × SecValue := (⟨t, a, []⟩, .int n)

/-- Entry shorthand: boolean value. -/
def eBool (t : String) (a : List Int) (b : Bool) : SecKey × SecValue := (⟨t, a, []⟩, .bool b)

/-- Entry shorthand: string value. -/
def eStr (t : String) (a : List Int) (s : String) : SecKey × SecValue := (⟨t, a, []⟩, .str s)

/-- Entry shorthand: string-vector value. -/
def eVec (t : String) (a : List Int) (v : List String) : SecKey × SecValue := (⟨t, a, []⟩, .strvec v)

/- =======================================================================
   Helper functions of savegame2.c.
   ======================================================================= -/

/-- quote_block: `"<len>:"` followed by `"%02x "` per byte. -/
def hex2 (b : Nat) : List Char :=
  [hex_chars.getD (b / 16 % 16) ' ', hex_chars.getD (b % 16) ' ']

/-- quote_block(data, length). -/
def quote_block (data : List Nat) : List Char :=
  decList data.length ++ [':'] ++ data.flatMap (fun b => hex2 b ++ [' '])

/-- worklist_save: writes `wl_length`, the kind/value pair of every real
entry, and pads with empty-string pairs up to `max_length` (guarded by
`fc_assert_ret(max_length <= MAX_LEN_WORKLIST)`, which returns without
padding when violated). `pathT`/`pathA` form the resolved `path_str`
printf prefix. -/
def worklist_save (file : SecFile) (pwl : List Universal) (max_length : Nat)
    (pathT : String) (pathA : List Int) : SecFile :=
  let f1 := secfile_insert file ⟨pathT ++ ".wl_length", pathA, []⟩ (.int pwl.length)
  let f2 := pwl.enum.foldl (fun f iu =>
    secfile_insert
      (secfile_insert f ⟨pathT ++ ".wl_kind%d", pathA ++ [Int.ofNat iu.1], []⟩
        (.str (universal_type_rule_name iu.2)))
      ⟨pathT ++ ".wl_value%d", pathA ++ [Int.ofNat iu.1], []⟩
      (.str (universal_rule_name iu.2))) f1
  if ¬ max_length ≤ MAX_LEN_WORKLIST then f2
  else (List.range' pwl.length (max_length - pwl.length)).foldl (fun f i =>
    secfile_insert
      (secfile_insert f ⟨pathT ++ ".wl_kind%d", pathA ++ [Int.ofNat i], []⟩ (.str ""))
      ⟨pathT ++ ".wl_value%d", pathA ++ [Int.ofNat i], []⟩ (.str "")) f2

/-- Zeroing loop of unit_ordering_calc: `punit->server.ord_city = 0`. -/
def ord_zero : List Nat → (Nat → Nat) → (Nat → Nat)
  | [], f => f
  | u :: rest, f => ord_zero rest (Function.update f u 0)

/-- Counting loop of unit_ordering_calc: `punit->server.ord_* = j++`. -/
def ord_assign_from (j : Nat) : List Nat → (Nat → Nat) → (Nat → Nat)
  | [], f => f
  | u :: rest, f => ord_assign_from (j + 1) rest (Function.update f u j)

/-- Per-player city loop of unit_ordering_calc. -/
def ord_city_cities : List City → (Nat → Nat) → (Nat → Nat)
  | [], f => f
  | c :: rest, f => ord_city_cities rest (ord_assign_from 0 c.units_supported f)

/-- Player loop of unit_ordering_calc (zero the player's units, then
assign within each of its cities' supported lists). -/
def ord_city_players : List Player → (Nat → Nat) → (Nat → Nat)
  | [], f => f
  | p :: rest, f =>
    ord_city_players rest (ord_city_cities p.cities (ord_zero (p.units.map (·.id)) f))

/-- Whole-map loop of unit_ordering_calc for ord_map. -/
def ord_map_tiles (w : World) : List (Nat × Nat) → (Nat → Nat) → (Nat → Nat)
  | [], f => f
  | xy :: rest, f => ord_map_tiles w rest (ord_assign_from 0 ((w.tiles xy.1 xy.2).units) f)

/-- unit_ordering_calc: computes the ord_city and ord_map assignments
(the C function stores them into the unit structs; here the updated
id-indexed maps are returned). -/
def unit_ordering_calc (w : World) : (Nat → Nat) × (Nat → Nat) :=
  (ord_city_players w.players w.ord_city_init,
   ord_map_tiles w (map_tile_list w) w.ord_map_init)

/-- resource2char: cascade over the resource's untranslated name, with
the `printf`+space fallback of the source (the final
`return presource ? ...` line is unreachable). -/
def resource2char (presource : Option Resource) : Char :=
  match presource with
  | none => RESOURCE_NONE_IDENTIFIER
  | some r =>
    if r.name = "Gold" then '$'
    else if r.name = "Iron" then '/'
    else if r.name = "?animals:Game" then 'e'
    else if r.name = "Furs" then 'u'
    else if r.name = "Coal" then 'c'
    else if r.name = "Fish" then 'y'
    else if r.name = "Fruit" then 'f'
    else if r.name = "Gems" then 'g'
    else if r.name = "Buffalo" then 'b'
    else if r.name = "Wheat" then 'j'
    else if r.name = "Oasis" then 'o'
    else if r.name = "Peat" then 'a'
    else if r.name = "Pheasant" then 'p'
    else if r.name = "Resources" then 'r'
    else if r.name = "Ivory" then 'i'
    else if r.name = "Silk" then 's'
    else if r.name = "Spice" then 't'
    else if r.name = "Whales" then 'v'
    else if r.name = "Wine" then 'w'
    else if r.name = "Oil" then 'x'
    else ' '

/-- terrain2char: `T_UNKNOWN` (modelled as `none`) yields 'i', then the
cascade over the terrain's untranslated name with the `printf`+space
fallback. -/
def terrain2char (pterrain : Option String) : Char :=
  match pterrain with
  | none => 'i'
  | some n =>
    if n = "Inaccessible" then 'i'
    else if n = "Lake" then '+'
    else if n = "Ocean" then ' '
    else if n = "Deep Ocean" then ':'
    else if n = "Glacier" then 'a'
    else if n = "Desert" then 'd'
    else if n = "Forest" then 'f'
    else if n = "Grassland" then 'g'
    else if n = "Hills" then 'h'
    else if n = "Jungle" then 'j'
    else if n = "Mountains" then 'm'
    else if n = "Plains" then 'p'
    else if n = "Swamp" then 's'
    else if n = "Tundra" then 't'
    else ' '

/-- technology_save: writes `<path>_name` with the symbolic tech name. -/
def technology_save (w : World) (file : SecFile) (pathT : String) (plrno : Int)
    (tech : Int) : SecFile :=
  let name :=
    if tech = A_UNKNOWN then ""
    else if tech = A_NONE then "A_NONE"
    else if tech = A_UNSET then "A_UNSET"
    else if tech = A_FUTURE then "A_FUTURE"
    else w.advance_rule_name tech
  secfile_insert file ⟨pathT ++ "_name", [plrno], []⟩ (.str name)

/-- Modelled from the spec: rgbcolor_save (utility/rgbcolor.c, an
external collaborator) records the three colour components under the
given path. -/
def rgbcolor_save (file : SecFile) (rgb : Int × Int × Int) (t : String)
    (a : List Int) : SecFile :=
  file ++ [eInt (t ++ ".red") a rgb.1, eInt (t ++ ".green") a rgb.2.1,
           eInt (t ++ ".blue") a rgb.2.2]

/- =======================================================================
   SAVE_MAP_CHAR / LOAD_MAP_CHAR.
   ======================================================================= -/

/-- The character line of one map row assembled by SAVE_MAP_CHAR. -/
def save_map_line (w : World) (get : Nat → Nat → Char) (y : Nat) : List Char :=
  (List.range w.xsize).map (fun x => get x y)

/-- Row loop of SAVE_MAP_CHAR.  The `sg_failure_ret` inside the macro
checks `fc_isprint(c & 0x7f)` for every character as the line is built;
on the first failure it sets `sg_success = FALSE` and returns from the
enclosing function, so the offending line is not inserted and no
further row is processed. -/
def SAVE_MAP_CHAR_go (w : World) (get : Nat → Nat → Char) (t : String) (a : List Int) :
    List Nat → Savedata → Savedata
  | [], s => s
  | y :: rest, s =>
    let line := save_map_line w get y
    if line.all fc_isprint then
      SAVE_MAP_CHAR_go w get t a rest
        {s with file := secfile_insert s.file ⟨t, a ++ [(y : Int)], []⟩ (.str ⟨line⟩)}
    else {s with sg_success := false}

/-- SAVE_MAP_CHAR: one `secfile_insert_str` per map row, the row number
appended as the last printf argument. -/
def SAVE_MAP_CHAR (w : World) (get : Nat → Nat → Char) (t : String) (a : List Int)
    (s : Savedata) : Savedata :=
  SAVE_MAP_CHAR_go w get t a (List.range w.ysize) s

/-- Inner loop of LOAD_MAP_CHAR over one validated line. -/
def load_map_row {σ : Type} (xsize : Nat) (set : σ → Nat → Nat → Char → σ)
    (y : Nat) (line : List Char) (st : σ) : σ :=
  (List.range xsize).foldl (fun st x => set st x y (line.getD x ' ')) st

/-- Row loop of LOAD_MAP_CHAR; the accumulator carries the state and
`_printed_warning`. -/
def LOAD_MAP_CHAR_go {σ : Type} (xsize : Nat) (lookup : Nat → Option String)
    (set : σ → Nat → Nat → Char → σ) : List Nat → σ × Bool → σ × Bool
  | [], acc => acc
  | y :: rest, acc =>
    match lookup y with
    | none => LOAD_MAP_CHAR_go xsize lookup set rest (acc.1, true)
    | some line =>
      if line.length ≠ xsize then LOAD_MAP_CHAR_go xsize lookup set rest (acc.1, true)
      else LOAD_MAP_CHAR_go xsize lookup set rest
        (load_map_row xsize set y line.toList acc.1, acc.2)

/-- LOAD_MAP_CHAR: per row, looks the line up; a missing line or a line
whose length differs from map.xsize records a warning and `continue`s to
the next row; otherwise every character of the line is applied through
SET_XY_CHAR.  The returned flag is `_printed_warning` (the summary
`log_sg` fires iff it is set). -/
def LOAD_MAP_CHAR {σ : Type} (xsize ysize : Nat) (lookup : Nat → Option String)
    (set : σ → Nat → Nat → Char → σ) (st : σ) : σ × Bool :=
  LOAD_MAP_CHAR_go xsize lookup set (List.range ysize) (st, false)

/-- The grid-typed SET_XY_CHAR instance used to state the load claims:
the map as a function from native (x, y) to the stored character. -/
def grid_set (st : Nat × Nat → Char) (x y : Nat) (c : Char) : Nat × Nat → Char :=
  Function.update st (x, y) c

/- =======================================================================
   Save stages.  Every sg_save_* starts with the sg_check_ret() guard:
   `if (!sg_success) return;`.  A `sg_failure_ret` that fires inside a
   body sets the flag and returns early; code after a possibly-failing
   sub-step is therefore guarded on the flag, which is equivalent since
   the flag was true on entry and only the failing sub-steps clear it.
   ======================================================================= -/

/-- sg_save_savefile_options: concatenates onto saving->secfile_options
and replaces the "savefile.options" entry (the only replace in the
saver).  A NULL option is modelled as `none`. -/
def sg_save_savefile_options (opt : Option String) (s : Savedata) : Savedata :=
  if !s.sg_success then s
  else
    match opt with
    | none => s
    | some o =>
      let newOpts := s.secfile_options ++ o
      { s with secfile_options := newOpts,
               file := secfile_replace_str s.file newOpts (key2 "savefile.options" []) }

/-- sg_save_scenario. -/
def sg_save_scenario (w : World) (s : Savedata) : Savedata :=
  if !s.sg_success then s
  else if !s.scenario || !w.scenario_is_scenario then
    { s with file := s.file ++ [eBool "scenario.is_scenario" [] false] }
  else
    { s with file := s.file ++
        [eBool "scenario.is_scenario" [] true,
         eStr "scenario.name" [] w.scenario_name] ++
        (if w.scenario_description ≠ "" then
          [eStr "scenario.description" [] w.scenario_description] else []) ++
        [eBool "scenario.players" [] w.scenario_players,
         eBool "scenario.startpos_nations" [] w.scenario_startpos_nations] }

/-- sg_save_savefile: options, version, reason, rulesetdir and the six
order tables. -/
def sg_save_savefile (w : World) (s : Savedata) : Savedata :=
  if !s.sg_success then s
  else
    let s1 := sg_save_savefile_options (some savefile_options_default) s
    { s1 with file := s1.file ++
        [eInt "savefile.version" [] compat_current_version,
         eStr "savefile.reason" [] s1.save_reason,
         eStr "savefile.rulesetdir" [] "LT49",
         eInt "savefile.improvement_size" [] (improvement_count w : Int)] ++
        (if improvement_count w > 0 then
          [eVec "savefile.improvement_vector" [] w.improvement_names] else []) ++
        [eInt "savefile.technology_size" [] (w.num_tech_types : Int)] ++
        (if w.num_tech_types > 0 then
          [eVec "savefile.technology_vector" [] ("A_NONE" :: w.advance_names)] else []) ++
        [eInt "savefile.activities_size" [] (ACTIVITY_LAST_val : Int)] ++
        (if ACTIVITY_LAST_val > 0 then
          [eVec "savefile.activities_vector" []
            ((List.range ACTIVITY_LAST_val).map w.unit_activity_name)] else []) ++
        [eInt "savefile.trait_size" [] (w.trait_names.length : Int),
         eVec "savefile.trait_vector" [] w.trait_names,
         eInt "savefile.specials_size" [] (S_LAST w : Int),
         eVec "savefile.specials_vector" [] w.special_names,
         eInt "savefile.bases_size" [] (num_base_types w : Int)] ++
        (if num_base_types w > 0 then
          [eVec "savefile.bases_vector" [] w.base_names] else []) ++
        [eInt "savefile.roads_size" [] (num_road_types w : Int)] ++
        (if num_road_types w > 0 then
          [eVec "savefile.roads_vector" [] w.road_names] else []) }

/-- game.version = MAJOR*10000 + MINOR*100 + PATCH. -/
def game_version (w : World) : Int :=
  w.major_version * 10000 + w.minor_version * 100 + w.patch_version

/-- The global_advances '1'/'0' string. -/
def global_advances_str (w : World) : String :=
  ⟨(List.range w.num_tech_types).map (fun i => if w.global_advances i then '1' else '0')⟩

/-- sg_save_game: the [game] section; also computes and stores
saving->save_players. -/
def sg_save_game (w : World) (s : Savedata) : Savedata :=
  if !s.sg_success then s
  else
    let srv_state :=
      if s.scenario && !w.scenario_players then server_states.S_S_INITIAL
      else if w.is_new_game then w.server_state
      else server_states.S_S_RUNNING
    let sp :=
      if !w.game_was_started then false
      else if s.scenario then w.scenario_players
      else true
    { s with save_players := sp,
             file := s.file ++
        [eInt "game.version" [] (game_version w),
         eStr "game.server_state" [] (server_states_name srv_state),
         eStr "game.meta_patches" [] w.meta_patches,
         eBool "game.meta_usermessage" [] false,
         eStr "game.meta_server" [] w.meta_addr_port,
         eStr "game.id" [] w.game_identifier,
         eStr "game.serverid" [] w.serverid,
         eInt "game.skill_level" [] w.skill_level,
         eInt "game.phase_mode" [] w.phase_mode,
         eInt "game.phase_mode_stored" [] 0,
         eInt "game.phase" [] w.phase,
         eInt "game.scoreturn" [] 0,
         eInt "game.timeoutint" [] 0,
         eInt "game.timeoutintinc" [] 0,
         eInt "game.timeoutinc" [] 0,
         eInt "game.timeoutincmult" [] 0,
         eInt "game.timeoutcounter" [] 0,
         eInt "game.turn" [] w.turn,
         eInt "game.year" [] w.year,
         eBool "game.year_0_hack" [] w.year_0_hack,
         eInt "game.globalwarming" [] w.globalwarming,
         eInt "game.heating" [] w.heating,
         eInt "game.warminglevel" [] w.warminglevel,
         eInt "game.nuclearwinter" [] w.nuclearwinter,
         eInt "game.cooling" [] w.cooling,
         eInt "game.coolinglevel" [] w.coolinglevel,
         eStr "game.global_advances" [] (global_advances_str w),
         eBool "game.save_players" [] sp] }

/-- sg_save_random: the guard `fc_rand_is_init() && FALSE` makes the
then-branch dead; the live branch writes random.save = FALSE. -/
def sg_save_random (w : World) (s : Savedata) : Savedata :=
  if !s.sg_success then s
  else if w.fc_rand_is_init && false then
    { s with file := s.file ++
        [eBool "random.save" [] true,
         eInt "random.index_J" [] w.rstate_j,
         eInt "random.index_K" [] w.rstate_k,
         eInt "random.index_X" [] w.rstate_x] ++
        (List.range 8).map (fun i => eStr "random.table%d" [Int.ofNat i] (w.rstate_table i)) }
  else { s with file := s.file ++ [eBool "random.save" [] false] }

/-- sg_save_script: script_server_state_save(file) is the scripting
collaborator; it appends its own entries. -/
def sg_save_script (w : World) (s : Savedata) : Savedata :=
  if !s.sg_success then s
  else { s with file := s.file ++ w.script_entries }

/-- sg_save_settings: settings_game_save(file, "settings") is the
settings collaborator; it appends its own entries. -/
def sg_save_settings (w : World) (s : Savedata) : Savedata :=
  if !s.sg_success then s
  else { s with file := s.file ++ w.settings_entries }

/-- The spec_sprite / label inserts of sg_save_map_tiles
(whole_map_iterate, optional entries per tile). -/
def spec_sprite_label_entries (w : World) : SecFile :=
  (map_tile_list w).flatMap (fun xy =>
    (match (w.tiles xy.1 xy.2).spec_sprite with
     | some sp => [eStr "map.spec_sprite_%d_%d" [(xy.1 : Int), (xy.2 : Int)] sp]
     | none => []) ++
    (match (w.tiles xy.1 xy.2).label with
     | some lb => [eStr "map.label_%d_%d" [(xy.1 : Int), (xy.2 : Int)] lb]
     | none => []))

/-- sg_save_map_tiles: the terrain lines, then the optional
spec_sprite/label entries (skipped if the terrain SAVE_MAP_CHAR
failed and returned early). -/
def sg_save_map_tiles (w : World) (s : Savedata) : Savedata :=
  if !s.sg_success then s
  else
    let s1 := SAVE_MAP_CHAR w (fun x y => terrain2char (w.tiles x y).terrain) "map.t%04d" [] s
    if s1.sg_success then { s1 with file := s1.file ++ spec_sprite_label_entries w } else s1

/-- halfbyte_iterate_*: the nibble-group indices, `for (j = 0; 4*j < n; j++)`. -/
def halfbyte_groups (n : Nat) : List Nat := List.range ((n + 3) / 4)

/-- The 4-entry index window `mod[]` built by sg_save_map_tiles_bases for
nibble group j (note the source's `4 * j + 1 > num` condition). -/
def sg_save_bases_mod (nbases : Nat) (j : Nat) : Fin 4 → Int :=
  fun l => if 4 * j + 1 > nbases then -1 else ((4 * j + l.val : Nat) : Int)

/-- The 4-entry index window `mod[]` built by sg_save_map_tiles_roads for
nibble group j (note the source's `4 * j + 1 > num` condition). -/
def sg_save_roads_mod (nroads : Nat) (j : Nat) : Fin 4 → Int :=
  fun l => if 4 * j + 1 > nroads then -1 else ((4 * j + l.val : Nat) : Int)

/-- The 4-entry index window `mod[]` built by sg_save_map_tiles_specials
for nibble group j: rivers-overlay keeps only S_OLD_RIVER, otherwise
`MIN(4*j+l, S_LAST)`. -/
def sg_save_specials_mod (sLast : Nat) (rivers_overlay : Bool) (sOldRiver : Nat)
    (j : Nat) : Fin 4 → Nat :=
  fun l =>
    if rivers_overlay then (if 4 * j + l.val = sOldRiver then sOldRiver else sLast)
    else min (4 * j + l.val) sLast

/-- Group loop of sg_save_map_tiles_bases (early return on a failed
SAVE_MAP_CHAR). -/
def sg_save_map_tiles_bases_go (w : World) : List Nat → Savedata → Savedata
  | [], s => s
  | j :: rest, s =>
    let mod := sg_save_bases_mod (num_base_types w) j
    let s1 := SAVE_MAP_CHAR w (fun x y => sg_bases_get (w.tiles x y).bases mod)
      "map.b%02d_%04d" [(j : Int)] s
    if s1.sg_success then sg_save_map_tiles_bases_go w rest s1 else s1

/-- sg_save_map_tiles_bases. -/
def sg_save_map_tiles_bases (w : World) (s : Savedata) : Savedata :=
  if !s.sg_success then s
  else sg_save_map_tiles_bases_go w (halfbyte_groups (num_base_types w)) s

/-- Group loop of sg_save_map_tiles_roads. -/
def sg_save_map_tiles_roads_go (w : World) : List Nat → Savedata → Savedata
  | [], s => s
  | j :: rest, s =>
    let mod := sg_save_roads_mod (num_road_types w) j
    let s1 := SAVE_MAP_CHAR w (fun x y => sg_roads_get (w.tiles x y).roads mod)
      "map.r%02d_%04d" [(j : Int)] s
    if s1.sg_success then sg_save_map_tiles_roads_go w rest s1 else s1

/-- sg_save_map_tiles_roads. -/
def sg_save_map_tiles_roads (w : World) (s : Savedata) : Savedata :=
  if !s.sg_success then s
  else sg_save_map_tiles_roads_go w (halfbyte_groups (num_road_types w)) s

/-- Group loop of sg_save_map_tiles_specials. -/
def sg_save_map_tiles_specials_go (w : World) (rivers_overlay : Bool) :
    List Nat → Savedata → Savedata
  | [], s => s
  | j :: rest, s =>
    let mod := sg_save_specials_mod (S_LAST w) rivers_overlay w.s_old_river j
    let s1 := SAVE_MAP_CHAR w (fun x y => sg_special_get (S_LAST w) (w.tiles x y).special mod)
      "map.spe%02d_%04d" [(j : Int)] s
    if s1.sg_success then sg_save_map_tiles_specials_go w rivers_overlay rest s1 else s1

/-- sg_save_map_tiles_specials. -/
def sg_save_map_tiles_specials (w : World) (rivers_overlay : Bool) (s : Savedata) : Savedata :=
  if !s.sg_success then s
  else sg_save_map_tiles_specials_go w rivers_overlay (halfbyte_groups (S_LAST w)) s

/-- sg_save_map_tiles_resources. -/
def sg_save_map_tiles_resources (w : World) (s : Savedata) : Savedata :=
  if !s.sg_success then s
  else SAVE_MAP_CHAR w (fun x y => resource2char (w.tiles x y).resource) "map.res%04d" [] s

/-- sg_save_map_startpos: the `save_starts` option check is commented out
in the source, leaving the early `return;` always taken, so the function
writes nothing. -/
def sg_save_map_startpos (_w : World) (s : Savedata) : Savedata :=
  if !s.sg_success then s
  else s

/-- The owner token of one tile: "-" when players are not saved or the
tile is unowned, the owner's player number otherwise. -/
def owner_token (s : Savedata) (t : Tile) : List Char :=
  if !s.save_players || t.owner = none then ['-']
  else decList (t.owner.getD 0)

/-- The claimer token of one tile: "-" or the claimer tile's index. -/
def claimer_token (t : Tile) : List Char :=
  match t.claimer with
  | none => ['-']
  | some idx => decList idx

/-- The worked token of one tile: "-" or the working city's id. -/
def worked_token (t : Tile) : List Char :=
  match t.worked with
  | none => ['-']
  | some cid => decList cid

/-- Line building of sg_save_map_owner: strcat of the token, then of ","
when `x + 1 < map.xsize`. -/
def line_fold (tok : Nat → List Char) (wdt : Nat) : List Char :=
  (List.range wdt).foldl (fun line x => line ++ tok x ++ (if x + 1 < wdt then [','] else [])) []

/-- Line building of sg_save_map_worked: strcat of the token, then of ","
when `x < map.xsize` — which always holds inside the loop. -/
def worked_line_fold (tok : Nat → List Char) (wdt : Nat) : List Char :=
  (List.range wdt).foldl (fun line x => line ++ tok x ++ (if x < wdt then [','] else [])) []

/-- sg_save_map_owner: the map.owner lines then the map.source lines. -/
def sg_save_map_owner (w : World) (s : Savedata) : Savedata :=
  if !s.sg_success then s
  else if s.scenario && !s.save_players then s
  else
    { s with file := s.file ++
        (List.range w.ysize).map (fun y =>
          eStr "map.owner%04d" [Int.ofNat y]
            ⟨line_fold (fun x => owner_token s (w.tiles x y)) w.xsize⟩) ++
        (List.range w.ysize).map (fun y =>
          eStr "map.source%04d" [Int.ofNat y]
            ⟨line_fold (fun x => claimer_token (w.tiles x y)) w.xsize⟩) }

/-- sg_save_map_worked: the map.worked lines. -/
def sg_save_map_worked (w : World) (s : Savedata) : Savedata :=
  if !s.sg_success then s
  else if s.scenario && !s.save_players then s
  else
    { s with file := s.file ++
        (List.range w.ysize).map (fun y =>
          eStr "map.worked%04d" [Int.ofNat y]
            ⟨worked_line_fold (fun x => worked_token (w.tiles x y)) w.xsize⟩) }

/-- Number of 32-player line sets: player_slot_max_used_number()/32 + 1. -/
def known_lines (w : World) : Nat := w.player_slot_max_used_number / 32 + 1

/-- The 32-bit word `known[l * MAP_INDEX_SIZE + tile_index]`: bit p%32
set for every player p with p/32 = l that knows the tile. -/
def known_val (w : World) (l : Nat) (x y : Nat) : Nat :=
  w.players.foldl (fun acc p =>
    if (w.tiles x y).known_by p.plrno && p.plrno / 32 = l then
      acc ||| (1 <<< (p.plrno % 32))
    else acc) 0

/-- The (l, j) halfbyte pairs iterated by sg_save_map_known. -/
def known_line_pairs (w : World) : List (Nat × Nat) :=
  (List.range (known_lines w)).flatMap (fun l => (List.range 8).map (fun j => (l, j)))

/-- Inner loops of sg_save_map_known: per (l, j) halfbyte, save a map of
hex digits if at least one of the four corresponding player slots is in
use (the `break` after SAVE_MAP_CHAR only exits the slot-probing loop). -/
def sg_save_map_known_go (w : World) : List (Nat × Nat) → Savedata → Savedata
  | [], s => s
  | lj :: rest, s =>
    if (List.range 4).any (fun i => w.player_slot_used (lj.1 * 32 + lj.2 * 4 + i)) then
      let s1 := SAVE_MAP_CHAR w (fun x y => bin2ascii_hex (known_val w lj.1 x y) lj.2)
        "map.k%02d_%04d" [((lj.1 * 8 + lj.2 : Nat) : Int)] s
      if s1.sg_success then sg_save_map_known_go w rest s1 else s1
    else sg_save_map_known_go w rest s

/-- sg_save_map_known. -/
def sg_save_map_known (w : World) (s : Savedata) : Savedata :=
  if !s.sg_success then s
  else if !s.save_players then
    { s with file := s.file ++ [eBool "game.save_known" [] false] }
  else
    sg_save_map_known_go w (known_line_pairs w)
      { s with file := s.file ++ [eBool "game.save_known" [] true] }

/-- sg_save_map: both branches of the scenario test insert
have_huts = TRUE, then the sub-stages run in source order (the
riversoverlay alternative is commented out in the source). -/
def sg_save_map (w : World) (s : Savedata) : Savedata :=
  if !s.sg_success then s
  else if w.map_is_empty then s
  else
    sg_save_map_known w (sg_save_map_worked w (sg_save_map_owner w
      (sg_save_map_tiles_resources w (sg_save_map_tiles_specials w false
        (sg_save_savefile_options (some " specials")
          (sg_save_map_tiles_roads w (sg_save_map_tiles_bases w
            (sg_save_map_startpos w (sg_save_map_tiles w
              { s with file := s.file ++ [eBool "map.have_huts" [] true] })))))))))

/- =======================================================================
   Player saving.
   ======================================================================= -/

/-- The integer value of a unit_activity enum member (constructor order
models the external enum declaration). -/
def unit_activity_val (a : unit_activity) : Int := Int.ofNat (unit_activity.toCtorIdx a)

/-- The diplomatic-state rows written by sg_save_player_main (one per
player in the players list, under `player%d.diplstate%d`). -/
def diplstate_entries (w : World) (p : Player) : SecFile :=
  w.players.flatMap (fun q =>
    let a : List Int := [Int.ofNat p.plrno, Int.ofNat q.plrno]
    let ds := p.diplstate q.plrno
    [eInt "player%d.diplstate%d.type" a ds.dstype,
     eInt "player%d.diplstate%d.max_state" a ds.max_state,
     eInt "player%d.diplstate%d.first_contact_turn" a ds.first_contact_turn,
     eInt "player%d.diplstate%d.turns_left" a ds.turns_left,
     eInt "player%d.diplstate%d.has_reason_to_cancel" a ds.has_reason_to_cancel,
     eInt "player%d.diplstate%d.contact_turns_left" a ds.contact_turns_left,
     eBool "player%d.diplstate%d.embassy" a (p.embassy q.plrno),
     eBool "player%d.diplstate%d.gives_shared_vision" a (p.shared_vision q.plrno)])

/-- The research.done '1'/'0' string (advance_index_iterate from A_NONE). -/
def research_done_str (w : World) (p : Player) : String :=
  ⟨(List.range w.num_tech_types).map (fun t => if p.invention_known t then '1' else '0')⟩

/-- The spaceship sub-record of sg_save_player_main. -/
def spaceship_entries (p : Player) : SecFile :=
  let pn := Int.ofNat p.plrno
  let ship := p.spaceship
  [eInt "player%d.spaceship.state" [pn] ship.state] ++
  (if ship.state ≠ SSHIP_NONE then
    [eInt "player%d.spaceship.structurals" [pn] ship.structurals,
     eInt "player%d.spaceship.components" [pn] ship.components,
     eInt "player%d.spaceship.modules" [pn] ship.modules,
     eInt "player%d.spaceship.fuel" [pn] ship.fuel,
     eInt "player%d.spaceship.propulsion" [pn] ship.propulsion,
     eInt "player%d.spaceship.habitation" [pn] ship.habitation,
     eInt "player%d.spaceship.life_support" [pn] ship.life_support,
     eInt "player%d.spaceship.solar_panels" [pn] ship.solar_panels,
     eStr "player%d.spaceship.structure" [pn]
       ⟨(List.range NUM_SS_STRUCTURALS).map (fun i => if ship.structure_bits i then '1' else '0')⟩] ++
    (if ship.state ≥ SSHIP_LAUNCHED then
      [eInt "player%d.spaceship.launch_year" [pn] ship.launch_year] else [])
   else [])

/-- The lost-wonders '1'/'0' string of one player. -/
def lost_wonders_str (w : World) (p : Player) : String :=
  ⟨(List.range (improvement_count w)).map (fun i =>
    if w.improvement_is_wonder i && p.wonder_lost i then '1' else '0')⟩

/-- All entries of sg_save_player_main for one player, in source order.
The function contains no failure point, so it is a pure append. -/
def player_main_entries (w : World) (p : Player) : SecFile :=
  let pn := Int.ofNat p.plrno
  [eStr "player%d.ai_type" [pn] "classic",
   eStr "player%d.name" [pn] p.pname,
   eStr "player%d.username" [pn] p.username] ++
  (match p.rgb with
   | some c => rgbcolor_save [] c "player%d.color" [pn]
   | none => []) ++
  [eStr "player%d.ranked_username" [pn] p.ranked_username,
   eStr "player%d.delegation_username" [pn] (p.delegation.getD ""),
   eStr "player%d.nation" [pn] p.nation,
   eInt "player%d.team_no" [pn] (p.team.getD (-1)),
   eStr "player%d.government_name" [pn] p.government] ++
  (match p.target_government with
   | some g => [eStr "player%d.target_government_name" [pn] g]
   | none => []) ++
  [eStr "player%d.city_style_by_name" [pn] p.city_style,
   eBool "player%d.is_male" [pn] p.is_male,
   eBool "player%d.is_alive" [pn] p.is_alive,
   eBool "player%d.ai.control" [pn] p.ai_controlled] ++
  diplstate_entries w p ++
  w.players.map (fun q =>
    eInt "player%d.ai%d.love" [pn, Int.ofNat q.plrno] (p.ai_love q.plrno)) ++
  p.ai_entries ++
  [eInt "player%d.ai.skill_level" [pn] p.skill_level,
   eInt "player%d.ai.is_barbarian" [pn] p.barbarian_type,
   eInt "player%d.gold" [pn] p.gold,
   eInt "player%d.rates.tax" [pn] p.tax,
   eInt "player%d.rates.science" [pn] p.science,
   eInt "player%d.rates.luxury" [pn] p.luxury] ++
  technology_save w [] "player%d.research.goal" pn p.tech_goal ++
  [eInt "player%d.research.bulbs_last_turn" [pn] p.bulbs_last_turn,
   eInt "player%d.research.techs" [pn] p.techs_researched,
   eInt "player%d.research.futuretech" [pn] p.future_tech,
   eInt "player%d.research.bulbs_before" [pn] p.bulbs_researching_saved] ++
  technology_save w [] "player%d.research.saved" pn p.researching_saved ++
  [eInt "player%d.research.bulbs" [pn] p.bulbs_researched] ++
  technology_save w [] "player%d.research.now" pn p.researching ++
  [eBool "player%d.research.got_tech" [pn] p.got_tech,
   eStr "player%d.research.done" [pn] (research_done_str w p)] ++
  (List.range w.trait_names.length).map (fun j =>
    eInt "player%d.trait.mod%d" [pn, Int.ofNat j] 0) ++
  [eBool "player%d.capital" [pn] p.got_first_city,
   eInt "player%d.revolution_finishes" [pn] p.revolution_finishes,
   eInt "player%d.units_built" [pn] p.units_built,
   eInt "player%d.units_killed" [pn] p.units_killed,
   eInt "player%d.units_lost" [pn] p.units_lost] ++
  spaceship_entries p ++
  [eStr "player%d.lost_wonders" [pn] (lost_wonders_str w p)]

/-- sg_save_player_main. -/
def sg_save_player_main (w : World) (plr : Player) (s : Savedata) : Savedata :=
  if !s.sg_success then s
  else { s with file := s.file ++ player_main_entries w plr }

/-- wlist_max_length: the longest worklist among the player's cities. -/
def wlist_max_length (cities : List City) : Nat :=
  cities.foldl (fun m c => if c.worklist.length > m then c.worklist.length else m) 0

/-- The nations flags computed in the first city loop: player index i is
flagged when some city of the player has citizens of that nation. -/
def player_cities_nations (w : World) (plr : Player) : Nat → Bool :=
  fun i => w.players.any (fun q => q.plrno = i) &&
    plr.cities.any (fun c => decide (c.citizens i ≠ 0))

/-- The city improvement '0'/'1' string (`built[...].turn <= I_NEVER`). -/
def city_improvements_str (w : World) (c : City) : String :=
  ⟨(List.range (improvement_count w)).map (fun idx =>
    if c.built_turn idx ≤ I_NEVER then '0' else '1')⟩

/-- The entries of one city record up to the improvement-vector length
check (which is the only failure point of the function). -/
def city_entries_pre (w : World) (pn : Int) (i : Nat) (c : City) : SecFile :=
  let a : List Int := [pn, Int.ofNat i]
  let xc : Int := Int.ofNat (c.tile_idx % w.xsize)
  let yc : Int := Int.ofNat (c.tile_idx / w.xsize)
  [eInt "player%d.c%d.y" a yc,
   eInt "player%d.c%d.x" a xc,
   eInt "player%d.c%d.id" a (c.id : Int),
   eInt "player%d.c%d.original" a c.original,
   eInt "player%d.c%d.size" a c.size] ++
  w.specialist_names.enum.map (fun inm =>
    (⟨"player%d.c%d.n%s", a, [inm.2]⟩, SecValue.int (c.specialists inm.1))) ++
  (List.range MAX_TRADE_ROUTES).map (fun j =>
    eInt "player%d.c%d.traderoute%d" (a ++ [Int.ofNat j]) (c.trade j)) ++
  [eInt "player%d.c%d.food_stock" a c.food_stock,
   eInt "player%d.c%d.shield_stock" a c.shield_stock,
   eInt "player%d.c%d.airlift" a c.airlift,
   eBool "player%d.c%d.was_happy" a c.was_happy,
   eInt "player%d.c%d.turn_plague" a c.turn_plague,
   eInt "player%d.c%d.anarchy" a c.anarchy,
   eInt "player%d.c%d.rapture" a c.rapture,
   eInt "player%d.c%d.steal" a c.steal,
   eInt "player%d.c%d.turn_founded" a c.turn_founded,
   eInt "player%d.c%d.did_buy" a
     (if c.turn_founded = w.turn then -1 else if c.did_buy then 1 else 0),
   eBool "player%d.c%d.did_sell" a c.did_sell,
   eInt "player%d.c%d.turn_last_built" a c.turn_last_built,
   eStr "player%d.c%d.name" a c.cname,
   eStr "player%d.c%d.currently_building_kind" a (universal_type_rule_name c.production),
   eStr "player%d.c%d.currently_building_name" a (universal_rule_name c.production),
   eStr "player%d.c%d.changed_from_kind" a (universal_type_rule_name c.changed_from),
   eStr "player%d.c%d.changed_from_name" a (universal_rule_name c.changed_from),
   eInt "player%d.c%d.before_change_shields" a c.before_change_shields,
   eInt "player%d.c%d.caravan_shields" a c.caravan_shields,
   eInt "player%d.c%d.disbanded_shields" a c.disbanded_shields,
   eInt "player%d.c%d.last_turns_shield_surplus" a c.last_turns_shield_surplus,
   eInt "player%d.c%d.city_radius_sq" a c.city_radius_sq]

/-- The city-option boolean entries. -/
def city_options_entries (pn : Int) (i : Nat) (c : City) : SecFile :=
  (List.range CITYO_LAST).map (fun j =>
    eBool "player%d.c%d.option%d" [pn, Int.ofNat i, Int.ofNat j] (c.city_options j))

/-- The citizen-nationality entries (only for flagged nations). -/
def citizen_entries (w : World) (nations : Nat → Bool) (pn : Int) (i : Nat)
    (c : City) : SecFile :=
  if w.citizen_nationality then
    (w.players.filter (fun q => nations q.plrno)).map (fun q =>
      eInt "player%d.c%d.citizen%d" [pn, Int.ofNat i, Int.ofNat q.plrno]
        (c.citizens q.plrno))
  else []

/-- One iteration of the city loop of sg_save_player_cities; the
`sg_failure_ret` on the improvement-vector size returns mid-record. -/
def save_city (w : World) (M : Nat) (nations : Nat → Bool) (pn : Int) (i : Nat)
    (c : City) (s : Savedata) : Savedata :=
  let s1 := { s with file := s.file ++ city_entries_pre w pn i c }
  if ¬ improvement_count w < MAX_NUM_ITEMS + 1 then { s1 with sg_success := false }
  else
    let f1 := secfile_insert s1.file ⟨"player%d.c%d.improvements", [pn, Int.ofNat i], []⟩
      (.str (city_improvements_str w c))
    let f2 := worklist_save f1 c.worklist M "player%d.c%d" [pn, Int.ofNat i]
    { s1 with file := f2 ++ city_options_entries pn i c ++ c.ai_entries ++
        citizen_entries w nations pn i c }

/-- The city loop (early return once the flag is cleared). -/
def save_cities_go (w : World) (M : Nat) (nations : Nat → Bool) (pn : Int) :
    List (Nat × City) → Savedata → Savedata
  | [], s => s
  | ic :: rest, s =>
    let s1 := save_city w M nations pn ic.1 ic.2 s
    if s1.sg_success then save_cities_go w M nations pn rest s1 else s1

/-- sg_save_player_cities (the calls to city_refresh and
sanity_check_city touch only the live game, not the document, and are
not modelled). -/
def sg_save_player_cities (w : World) (plr : Player) (s : Savedata) : Savedata :=
  if !s.sg_success then s
  else
    let pn := Int.ofNat plr.plrno
    let s1 := { s with file := s.file ++
      [eInt "player%d.ncities" [pn] (plr.cities.length : Int)] }
    save_cities_go w (wlist_max_length plr.cities) (player_cities_nations w plr)
      pn plr.cities.enum s1

/-- The order-queue block of one unit (five parallel strings, or the
placeholder row when the unit has no orders). -/
def unit_orders_entries (pn : Int) (i : Nat) (u : FcUnit) : SecFile :=
  let a : List Int := [pn, Int.ofNat i]
  if u.has_orders then
    [eInt "player%d.u%d.orders_length" a (u.orders_list.length : Int),
     eInt "player%d.u%d.orders_index" a u.orders_index,
     eBool "player%d.u%d.orders_repeat" a u.orders_repeat,
     eBool "player%d.u%d.orders_vigilant" a u.orders_vigilant,
     eBool "player%d.u%d.orders_last_move_safe" a u.last_order_move_is_safe,
     eStr "player%d.u%d.orders_list" a ⟨u.orders_list.map (fun o => order2char o.order)⟩,
     eStr "player%d.u%d.dir_list" a
       ⟨u.orders_list.map (fun o => if o.order = ORDER_MOVE then dir2char o.dir else '?')⟩,
     eStr "player%d.u%d.activity_list" a
       ⟨u.orders_list.map (fun o =>
         if o.order = ORDER_ACTIVITY then activity2char o.activity else '?')⟩,
     eStr "player%d.u%d.base_list" a
       ⟨u.orders_list.map (fun o =>
         if o.order = ORDER_ACTIVITY ∧ o.activity = ACTIVITY_BASE then num2char o.base else '?')⟩,
     eStr "player%d.u%d.road_list" a
       ⟨u.orders_list.map (fun o =>
         if o.order = ORDER_ACTIVITY ∧ o.activity = ACTIVITY_GEN_ROAD then num2char o.road else '?')⟩]
  else
    [eInt "player%d.u%d.orders_length" a 0,
     eInt "player%d.u%d.orders_index" a 0,
     eBool "player%d.u%d.orders_repeat" a false,
     eBool "player%d.u%d.orders_vigilant" a false,
     eBool "player%d.u%d.orders_last_move_safe" a false,
     eStr "player%d.u%d.orders_list" a "-",
     eStr "player%d.u%d.dir_list" a "-",
     eStr "player%d.u%d.activity_list" a "-",
     eStr "player%d.u%d.base_list" a "-",
     eStr "player%d.u%d.road_list" a "-"]

/-- All entries of one unit record, in source order.  `oc`/`om` are the
ord_city/ord_map maps stored by unit_ordering_calc. -/
def unit_entries (w : World) (oc om : Nat → Nat) (pn : Int) (i : Nat)
    (u : FcUnit) : SecFile :=
  let a : List Int := [pn, Int.ofNat i]
  [eInt "player%d.u%d.id" a (u.id : Int),
   eInt "player%d.u%d.x" a (Int.ofNat (u.tile_idx % w.xsize)),
   eInt "player%d.u%d.y" a (Int.ofNat (u.tile_idx / w.xsize)),
   eStr "player%d.u%d.facing" a ⟨[dir2char u.facing]⟩] ++
  (if w.citizen_nationality then
    [eInt "player%d.u%d.nationality" a (Int.ofNat u.nationality)] else []) ++
  [eInt "player%d.u%d.veteran" a u.veteran,
   eInt "player%d.u%d.hp" a u.hp,
   eInt "player%d.u%d.homecity" a u.homecity,
   eStr "player%d.u%d.type_by_name" a u.type_by_name,
   eInt "player%d.u%d.activity" a (unit_activity_val u.activity),
   eInt "player%d.u%d.activity_count" a u.activity_count,
   eInt "player%d.u%d.activity_target" a
     (match u.activity_tgt with
      | .special spe => spe
      | _ => (S_LAST w : Int)),
   eInt "player%d.u%d.activity_base" a
     (match u.activity_tgt with
      | .base b => b
      | _ => BASE_NONE),
   eInt "player%d.u%d.activity_road" a
     (match u.activity_tgt with
      | .road r => r
      | _ => ROAD_NONE),
   eInt "player%d.u%d.changed_from" a u.changed_from,
   eInt "player%d.u%d.changed_from_count" a u.changed_from_count,
   eInt "player%d.u%d.changed_from_target" a
     (match u.changed_from_tgt with
      | .special spe => spe
      | _ => (S_LAST w : Int)),
   eInt "player%d.u%d.changed_from_base" a
     (match u.changed_from_tgt with
      | .base b => b
      | _ => BASE_NONE),
   eInt "player%d.u%d.changed_from_road" a
     (match u.changed_from_tgt with
      | .road r => r
      | _ => ROAD_NONE),
   eBool "player%d.u%d.done_moving" a u.done_moving,
   eInt "player%d.u%d.moves" a u.moves_left,
   eInt "player%d.u%d.fuel" a u.fuel,
   eInt "player%d.u%d.born" a u.birth_turn,
   eInt "player%d.u%d.battlegroup" a u.battlegroup] ++
  (match u.goto_tile with
   | some t =>
     [eBool "player%d.u%d.go" a true,
      eInt "player%d.u%d.goto_x" a (Int.ofNat (t % w.xsize)),
      eInt "player%d.u%d.goto_y" a (Int.ofNat (t / w.xsize))]
   | none =>
     [eBool "player%d.u%d.go" a false,
      eInt "player%d.u%d.goto_x" a 0,
      eInt "player%d.u%d.goto_y" a 0]) ++
  [eBool "player%d.u%d.ai" a u.ai_controlled] ++
  u.ai_entries ++
  [eInt "player%d.u%d.ord_map" a (Int.ofNat (om u.id)),
   eInt "player%d.u%d.ord_city" a (Int.ofNat (oc u.id)),
   eBool "player%d.u%d.moved" a u.moved,
   eBool "player%d.u%d.paradropped" a u.paradropped,
   eInt "player%d.u%d.transported_by" a
     (match u.transported_by with
      | some tid => (tid : Int)
      | none => -1)] ++
  unit_orders_entries pn i u

/-- sg_save_player_units. -/
def sg_save_player_units (w : World) (oc om : Nat → Nat) (plr : Player)
    (s : Savedata) : Savedata :=
  if !s.sg_success then s
  else
    let pn := Int.ofNat plr.plrno
    { s with file := s.file ++
        [eInt "player%d.nunits" [pn] (plr.units.length : Int)] ++
        plr.units.enum.flatMap (fun iu => unit_entries w oc om pn iu.1 iu.2) }

/-- The chunks written after the (longer) first part: `MIN(left, 768)`
characters each. -/
def attr_rest_chunks (q : List Char) : Nat → List (List Char)
  | 0 => []
  | n + 1 => q.take 768 :: attr_rest_chunks (q.drop 768) n

/-- sg_save_player_attributes: the opaque attribute block is quoted and
chunked (PART_SIZE = 3*256, PART_ADJUST = 3; the first part is extended
by `bytes_at_colon % 3` to re-align the hex triples). -/
def sg_save_player_attributes (_w : World) (plr : Player) (s : Savedata) : Savedata :=
  if !s.sg_success then s
  else
    match plr.attribute_block with
    | none => s
    | some data =>
      let pn := Int.ofNat plr.plrno
      let quoted := quote_block data
      let bytes_left := quoted.length
      let bytes_at_colon := (decList data.length).length + 1
      let bytes_adjust := bytes_at_colon % 3
      let parts :=
        if bytes_left - bytes_adjust > 768 then 1 + (bytes_left - bytes_adjust - 1) / 768
        else 1
      let chunks :=
        if parts > 1 then
          quoted.take (768 + bytes_adjust) ::
            attr_rest_chunks (quoted.drop (768 + bytes_adjust)) (parts - 1)
        else [quoted]
      { s with file := s.file ++
          [eInt "player%d.attribute_v2_block_length" [pn] (data.length : Int),
           eInt "player%d.attribute_v2_block_length_quoted" [pn] (bytes_left : Int),
           eInt "player%d.attribute_v2_block_parts" [pn] (parts : Int)] ++
          chunks.enum.map (fun ic =>
            eStr "player%d.attribute_v2_block_data.part%d" [pn, Int.ofNat ic.1] ⟨ic.2⟩) }

/-- The players.destroyed_wonders '1'/'0' string. -/
def destroyed_wonders_str (w : World) : String :=
  ⟨(List.range (improvement_count w)).map (fun i =>
    if w.improvement_is_great_wonder i && w.great_wonder_destroyed i then '1' else '0')⟩

/-- The per-player loop body of sg_save_players (each callee re-checks
the flag, so a failure inside one makes the rest no-ops). -/
def players_fold (w : World) (oc om : Nat → Nat) : List Player → Savedata → Savedata
  | [], s => s
  | p :: rest, s =>
    players_fold w oc om rest
      (sg_save_player_attributes w p
        (sg_save_player_units w oc om p
          (sg_save_player_cities w p
            (sg_save_player_main w p s))))

/-- sg_save_players. -/
def sg_save_players (w : World) (s : Savedata) : Savedata :=
  if !s.sg_success then s
  else if (s.scenario && !s.save_players) || !w.game_was_started then s
  else
    let s1 := { s with file := s.file ++
        [eInt "players.nplayers" [] (w.players.length : Int),
         eStr "players.destroyed_wonders" [] (destroyed_wonders_str w),
         eInt "players.identity_number_used" [] w.identity_number] ++
        w.shuffled_order.enum.map (fun ip =>
          eInt "players.shuffled_player_%d" [Int.ofNat ip.1] (Int.ofNat ip.2)) }
    let ocom := unit_ordering_calc w
    players_fold w ocom.1 ocom.2 w.players s1

/-- sg_save_mapimg. -/
def sg_save_mapimg (w : World) (s : Savedata) : Savedata :=
  if !s.sg_success then s
  else
    { s with file := s.file ++
        [eInt "mapimg.count" [] (w.mapimg_defs.length : Int)] ++
        (if w.mapimg_defs.length > 0 then
          w.mapimg_defs.enum.map (fun im =>
            eStr "mapimg.mapdef%d" [Int.ofNat im.1] im.2)
         else []) }

/-- sg_save_sanitycheck: only the flag check. -/
def sg_save_sanitycheck (_w : World) (s : Savedata) : Savedata :=
  if !s.sg_success then s
  else s

/-- savegame2_save_real: builds the savedata, sets sg_success = TRUE and
runs every stage unconditionally in its fixed order; the final state
(including the surfaced flag) is returned, never thrown. -/
def savegame2_save_real (w : World) (file : SecFile) (save_reason : String)
    (scenario : Bool) : Savedata :=
  let saving := savedata_new file save_reason scenario
  let s0 := { saving with sg_success := true }
  sg_save_sanitycheck w (sg_save_mapimg w (sg_save_players w (sg_save_map w
    (sg_save_settings w (sg_save_script w (sg_save_random w (sg_save_game w
      (sg_save_savefile w (sg_save_scenario w s0)))))))))

/- =======================================================================
   Concrete instances used by witnesses and counterexamples.
   ======================================================================= -/

/-- A default tile. -/
def tile0 : Tile :=
  { terrain := none, special := fun _ => false, bases := fun _ => false,
    roads := fun _ => false, resource := none, spec_sprite := none,
    label := none, owner := none, claimer := none, worked := none,
    units := [], known_by := fun _ => false }

/-- A minimal world snapshot. -/
def trivWorld : World :=
  { xsize := 0, ysize := 0, map_is_empty := true, tiles := fun _ _ => tile0,
    game_was_started := false, is_new_game := true,
    server_state := .S_S_INITIAL, scenario_is_scenario := false,
    scenario_name := "", scenario_description := "", scenario_players := false,
    scenario_startpos_nations := false, major_version := 2, minor_version := 5,
    patch_version := 0, meta_patches := "", meta_addr_port := "",
    game_identifier := "", serverid := "", skill_level := 0, phase_mode := 0,
    phase := 0, turn := 0, year := 0, year_0_hack := false, globalwarming := 0,
    heating := 0, warminglevel := 0, nuclearwinter := 0, cooling := 0,
    coolinglevel := 0, global_advances := fun _ => false, num_tech_types := 0,
    advance_names := [], advance_rule_name := fun _ => "",
    improvement_names := [], improvement_is_great_wonder := fun _ => false,
    great_wonder_destroyed := fun _ => false,
    improvement_is_wonder := fun _ => false, trait_names := [],
    special_names := [], s_old_river := 0, base_names := [], road_names := [],
    unit_activity_name := fun _ => "", specialist_names := [],
    citizen_nationality := false, fc_rand_is_init := false, rstate_j := 0,
    rstate_k := 0, rstate_x := 0, rstate_table := fun _ => "",
    script_entries := [], settings_entries := [], identity_number := 0,
    shuffled_order := [], players := [],
    player_slot_max_used_number := 0, player_slot_used := fun _ => false,
    mapimg_defs := [], ord_city_init := fun _ => 0, ord_map_init := fun _ => 0 }

/-- A save state with the flag up and players saved. -/
def s_ok : Savedata :=
  { sg_success := true, file := [], secfile_options := "", save_reason := "",
    scenario := false, save_players := true }

/-- A save state after some stage cleared the flag. -/
def s_fail : Savedata := { s_ok with sg_success := false }

/-- A default spaceship (state SSHIP_NONE). -/
def ship0 : Spaceship :=
  { state := 0, structurals := 0, components := 0, modules := 0, fuel := 0,
    propulsion := 0, habitation := 0, life_support := 0, solar_panels := 0,
    structure_bits := fun _ => false, launch_year := 0 }

/-- A default city. -/
def city0 : City :=
  { id := 1, tile_idx := 0, original := 0, size := 1,
    specialists := fun _ => 0, trade := fun _ => 0, food_stock := 0,
    shield_stock := 0, airlift := 0, was_happy := false, turn_plague := 0,
    anarchy := 0, rapture := 0, steal := 0, turn_founded := 1,
    did_buy := false, did_sell := false, turn_last_built := 0, cname := "c",
    production := ⟨"", ""⟩, changed_from := ⟨"", ""⟩,
    before_change_shields := 0, caravan_shields := 0, disbanded_shields := 0,
    last_turns_shield_surplus := 0, city_radius_sq := 0,
    built_turn := fun _ => 0, worklist := [], city_options := fun _ => false,
    ai_entries := [], citizens := fun _ => 0, units_supported := [] }

/-- A default unit. -/
def unit0 : FcUnit :=
  { id := 1, tile_idx := 0, facing := .DIR8_NORTH, nationality := 0,
    veteran := 0, hp := 1, homecity := 0, type_by_name := "Warriors",
    activity := .ACTIVITY_IDLE, activity_count := 0,
    activity_tgt := .special 0, changed_from := 0, changed_from_count := 0,
    changed_from_tgt := .special 0, done_moving := false, moves_left := 0,
    fuel := 0, birth_turn := 0, battlegroup := -1, goto_tile := none,
    ai_controlled := false, ai_entries := [], moved := false,
    paradropped := false, transported_by := none, has_orders := false,
    orders_list := [], orders_index := 0, orders_repeat := false,
    orders_vigilant := false, last_order_move_is_safe := false }

/-- A city with a three-entry worklist. -/
def cityB3 : City :=
  { city0 with worklist := [⟨"w", "Warriors"⟩, ⟨"b", "Barracks"⟩, ⟨"w", "Phalanx"⟩] }

/-- A default player. -/
def player0 : Player :=
  { plrno := 0, pname := "p", username := "u", ranked_username := "u",
    delegation := none, rgb := none, nation := "n", team := none,
    government := "g", target_government := none, city_style := "s",
    is_male := true, is_alive := true, ai_controlled := false,
    diplstate := fun _ => ⟨0, 0, 0, 0, 0, 0⟩, embassy := fun _ => false,
    shared_vision := fun _ => false, ai_love := fun _ => 0, ai_entries := [],
    skill_level := 0, barbarian_type := 0, gold := 0, tax := 0, science := 0,
    luxury := 0, tech_goal := 0, bulbs_last_turn := 0, techs_researched := 0,
    future_tech := 0, bulbs_researching_saved := 0, researching_saved := 0,
    bulbs_researched := 0, researching := 0, got_tech := false,
    invention_known := fun _ => false, got_first_city := false,
    revolution_finishes := -1, units_built := 0, units_killed := 0,
    units_lost := 0, spaceship := ship0, wonder_lost := fun _ => false,
    cities := [], units := [], attribute_block := none }

/-- A player with two cities of worklist lengths 0 and 3. -/
def plr2 : Player := { player0 with cities := [city0, cityB3] }

/- =======================================================================
   Derived entry-block forms, used to state the structure theorems.
   ======================================================================= -/

/-- Derived form of the worklist sub-block appended by worklist_save
after the `wl_length` entry: the real kind/value pairs followed by the
empty-string padding pairs. -/
def wl_block (pathT : String) (pathA : List Int) (pwl : List Universal)
    (max_length : Nat) : SecFile :=
  pwl.enum.flatMap (fun iu =>
    [(⟨pathT ++ ".wl_kind%d", pathA ++ [Int.ofNat iu.1], []⟩,
      SecValue.str (universal_type_rule_name iu.2)),
     (⟨pathT ++ ".wl_value%d", pathA ++ [Int.ofNat iu.1], []⟩,
      SecValue.str (universal_rule_name iu.2))]) ++
  (List.range' pwl.length (max_length - pwl.length)).flatMap (fun d =>
    [(⟨pathT ++ ".wl_kind%d", pathA ++ [Int.ofNat d], []⟩, SecValue.str ""),
     (⟨pathT ++ ".wl_value%d", pathA ++ [Int.ofNat d], []⟩, SecValue.str "")])

/-- Derived form of the whole record appended for one city by the loop
of sg_save_player_cities (valid while the improvement-vector check
passes and `max_length ≤ MAX_LEN_WORKLIST`). -/
def city_block (w : World) (M : Nat) (nations : Nat → Bool) (pn : Int) (i : Nat)
    (c : City) : SecFile :=
  city_entries_pre w pn i c ++
  [(⟨"player%d.c%d.improvements", [pn, Int.ofNat i], []⟩,
    SecValue.str (city_improvements_str w c))] ++
  [(⟨"player%d.c%d.wl_length", [pn, Int.ofNat i], []⟩,
    SecValue.int c.worklist.length)] ++
  wl_block "player%d.c%d" [pn, Int.ofNat i] c.worklist M ++
  city_options_entries pn i c ++ c.ai_entries ++
  citizen_entries w nations pn i c

/-- The pipeline prefix of savegame2_save_real before the Players stage,
for a save invoked with the scenario flag set. -/
def pre7 (w : World) (file : SecFile) (reason : String) : Savedata :=
  sg_save_map w (sg_save_settings w (sg_save_script w (sg_save_random w
    (sg_save_game w (sg_save_savefile w (sg_save_scenario w
      { savedata_new file reason true with sg_success := true }))))))

/-- Generic form of the three 4-bit packing loops: `stop i` is the
sentinel test, `mem i` the bit-set membership of the windowed value. -/
def nibble_go (stop mem : Fin 4 → Bool) : Nat → List (Fin 4) → Nat
  | bin, [] => bin
  | bin, i :: rest =>
    if stop i then bin
    else nibble_go stop mem (if mem i then bin ||| (1 <<< i.val) else bin) rest

/-- Specification-side nibble: bit i is set iff slot i is present
(non-sentinel) and the bit-set holds its value. -/
def nibbleSpec (flag : Fin 4 → Bool) : Nat :=
  (if flag 0 then 1 else 0) + (if flag 1 then 2 else 0) +
  (if flag 2 then 4 else 0) + (if flag 3 then 8 else 0)

/-- A world with a non-empty 1x1 map, used for the scenario-suppression
instance. -/
def mapWorld7 : World :=
  { trivWorld with map_is_empty := false, xsize := 1, ysize := 1 }

/-- A pass over the ordinal maps writes a value at each id it touches that
does not depend on the incoming map: at every id it either leaves any
input unchanged or produces the same output for all inputs. -/
def WriteDet (L : (Nat → Nat) → (Nat → Nat)) : Prop :=
  ∀ f g u, (L f u = f u ∧ L g u = g u) ∨ L f u = L g u

/-- A unit with a given id. -/
def unitW (n : Nat) : FcUnit := { unit0 with id := n }

/-- A city supporting units 5 and 6. -/
def cityW8 : City := { city0 with units_supported := [5, 6] }

/-- A player owning cityW8 and units 5, 6, 7 (unit 7 supported by no
city). -/
def playerW8 : Player :=
  { player0 with cities := [cityW8], units := [unitW 5, unitW 6, unitW 7] }

/-- A tile occupied by units 5 and 6. -/
def tileW8 : Tile := { tile0 with units := [5, 6] }

/-- A 1x1 world for the unit-ordering instance. -/
def worldW8 : World :=
  { trivWorld with
    players := [playerW8], map_is_empty := false,
    xsize := 1, ysize := 1, tiles := fun _ _ => tileW8 }

theorem sg_special_get_go_eq_nibble_go (sLast : Nat) (specials : Nat → Bool)
    (index : Fin 4 → Nat) (bin : Nat) (l : List (Fin 4)) :
    sg_special_get_go sLast specials index bin l =
      nibble_go (fun i => decide (sLast ≤ index i)) (fun i => specials (index i)) bin l := by
  induction l generalizing bin with
  | nil => rfl
  | cons i rest ih =>
    simp only [sg_special_get_go, nibble_go, decide_eq_true_eq]
    split
    · rfl
    · exact ih _

theorem sg_bases_get_go_eq_nibble_go (bases : Nat → Bool)
    (index : Fin 4 → Int) (bin : Nat) (l : List (Fin 4)) :
    sg_bases_get_go bases index bin l =
      nibble_go (fun i => decide (index i < 0)) (fun i => bases (index i).toNat) bin l := by
  induction l generalizing bin with
  | nil => rfl
  | cons i rest ih =>
    simp only [sg_bases_get_go, nibble_go, decide_eq_true_eq]
    split
    · rfl
    · exact ih _

theorem sg_roads_get_go_eq_nibble_go (roads : Nat → Bool)
    (index : Fin 4 → Int) (bin : Nat) (l : List (Fin 4)) :
    sg_roads_get_go roads index bin l =
      nibble_go (fun i => decide (index i < 0)) (fun i => roads (index i).toNat) bin l := by
  induction l generalizing bin with
  | nil => rfl
  | cons i rest ih =>
    simp only [sg_roads_get_go, nibble_go, decide_eq_true_eq]
    split
    · rfl
    · exact ih _

/-- For a sentinel-suffix-closed window the break-at-sentinel loop
computes exactly the specification nibble. -/
theorem nibble_go_eq_nibbleSpec (stop mem : Fin 4 → Bool)
    (hclosed : ∀ i j : Fin 4, i ≤ j → stop i = true → stop j = true) :
    nibble_go stop mem 0 [0, 1, 2, 3] = nibbleSpec (fun i => !stop i && mem i) := by
  have h01 := hclosed 0 1 (by decide)
  have h12 := hclosed 1 2 (by decide)
  have h23 := hclosed 2 3 (by decide)
  cases hs0 : stop 0 <;> cases hs1 : stop 1 <;> cases hs2 : stop 2 <;> cases hs3 : stop 3 <;>
    simp_all [nibble_go, nibbleSpec] <;>
    cases hm0 : mem 0 <;> cases hm1 : mem 1 <;> cases hm2 : mem 2 <;> cases hm3 : mem 3 <;>
    simp_all <;> decide

/- =======================================================================
   Helper lemmas.
   ======================================================================= -/

theorem lor_bit_lt_16 (bin : Nat) (i : Fin 4) (h : bin < 16) :
    bin ||| (1 <<< i.val) < 16 := by
  interval_cases bin <;> fin_cases i <;> decide

theorem nibble_go_lt_16 (stop mem : Fin 4 → Bool) (bin : Nat) (l : List (Fin 4))
    (h : bin < 16) : nibble_go stop mem bin l < 16 := by
  induction l generalizing bin with
  | nil => exact h
  | cons i rest ih =>
    simp only [nibble_go]
    split
    · exact h
    · split
      · exact ih _ (lor_bit_lt_16 bin i h)
      · exact ih _ h

theorem hex_getD_prop (n : Nat) (h : n < 16) :
    hex_chars.getD n ' ' ∈ hex_chars ∧ fc_isprint (hex_chars.getD n ' ') = true := by
  interval_cases n <;> exact ⟨by decide, by decide⟩

/- =======================================================================
   Claim C3.
   ======================================================================= -/

/-- Claim C3: for every bit-set and every 4-slot index window whose
absent slots are marked by the sentinel (`S_LAST` for specials, a
negative index for bases and roads) — i.e. whose sentinel slots form a
suffix, as produced by the window builders — each bit-packing helper
returns the hex character of the nibble whose bit i is set iff slot i is
present and the bit-set contains the value at that slot; sentinel slots
contribute 0. -/
theorem C3_nibble_packing_helpers
    (sLast : Nat) (specials : Nat → Bool) (sidx : Fin 4 → Nat)
    (hs : ∀ i j : Fin 4, i ≤ j → sLast ≤ sidx i → sLast ≤ sidx j)
    (bases : Nat → Bool) (bidx : Fin 4 → Int)
    (hb : ∀ i j : Fin 4, i ≤ j → bidx i < 0 → bidx j < 0)
    (roads : Nat → Bool) (ridx : Fin 4 → Int)
    (hr : ∀ i j : Fin 4, i ≤ j → ridx i < 0 → ridx j < 0) :
    sg_special_get sLast specials sidx =
      hex_chars.getD
        (nibbleSpec (fun i => decide (sidx i < sLast) && specials (sidx i))) ' ' ∧
    sg_bases_get bases bidx =
      hex_chars.getD
        (nibbleSpec (fun i => decide (0 ≤ bidx i) && bases (bidx i).toNat)) ' ' ∧
    sg_roads_get roads ridx =
      hex_chars.getD
        (nibbleSpec (fun i => decide (0 ≤ ridx i) && roads (ridx i).toNat)) ' ' := by
  refine ⟨?_, ?_, ?_⟩
  · rw [sg_special_get, sg_special_get_go_eq_nibble_go,
      nibble_go_eq_nibbleSpec _ _ (fun i j hij hi => by
        simpa using hs i j hij (by simpa using hi))]
    congr 1
    apply congrArg
    funext i
    congr 1
    rcases Nat.lt_or_ge (sidx i) sLast with h | h
    · simp [h, Nat.not_le.mpr h]
    · simp [h, Nat.not_lt.mpr h]
  · rw [sg_bases_get, sg_bases_get_go_eq_nibble_go,
      nibble_go_eq_nibbleSpec _ _ (fun i j hij hi => by
        simpa using hb i j hij (by simpa using hi))]
    congr 1
    apply congrArg
    funext i
    congr 1
    rcases Int.lt_or_le (bidx i) 0 with h | h
    · simp [h, Int.not_le.mpr h]
    · simp [h, Int.not_lt.mpr h]
  · rw [sg_roads_get, sg_roads_get_go_eq_nibble_go,
      nibble_go_eq_nibbleSpec _ _ (fun i j hij hi => by
        simpa using hr i j hij (by simpa using hi))]
    congr 1
    apply congrArg
    funext i
    congr 1
    rcases Int.lt_or_le (ridx i) 0 with h | h
    · simp [h, Int.not_le.mpr h]
    · simp [h, Int.not_lt.mpr h]

/-- Witness for C3: concrete suffix-closed windows.  Specials with
S_LAST = 6 and window (0, 5, 6, 7), bit-set containing 0 and 5; bases
and roads with window (0, 1, -1, -1) and bit-set containing 1. -/
theorem C3_nibble_packing_helpers_witness :
    sg_special_get 6 (fun n => decide (n = 0 ∨ n = 5)) ![0, 5, 6, 7] = '3' ∧
    sg_bases_get (fun n => decide (n = 1)) ![0, 1, -1, -1] = '2' ∧
    sg_roads_get (fun n => decide (n = 1)) ![0, 1, -1, -1] = '2' := by
  have h := C3_nibble_packing_helpers 6 (fun n => decide (n = 0 ∨ n = 5)) ![0, 5, 6, 7]
    (by decide)
    (fun n => decide (n = 1)) ![0, 1, -1, -1] (by decide)
    (fun n => decide (n = 1)) ![0, 1, -1, -1] (by decide)
  refine ⟨?_, ?_, ?_⟩
  · rw [h.1]; decide
  · rw [h.2.1]; decide
  · rw [h.2.2]; decide

/- =======================================================================
   Claim C10.
   ======================================================================= -/

/-- Claim C10: the three bit-packing helpers are total and always return
one of the sixteen hex characters — the accumulated nibble stays in
[0, 15], the hex-alphabet indexing is in bounds, and the returned
character passes the printable-character check of SAVE_MAP_CHAR. -/
theorem C10_nibble_helpers_hex_range
    (sLast : Nat) (specials : Nat → Bool) (sidx : Fin 4 → Nat)
    (bases : Nat → Bool) (bidx : Fin 4 → Int)
    (roads : Nat → Bool) (ridx : Fin 4 → Int) :
    (sg_special_get sLast specials sidx ∈ hex_chars ∧
      fc_isprint (sg_special_get sLast specials sidx) = true) ∧
    (sg_bases_get bases bidx ∈ hex_chars ∧
      fc_isprint (sg_bases_get bases bidx) = true) ∧
    (sg_roads_get roads ridx ∈ hex_chars ∧
      fc_isprint (sg_roads_get roads ridx) = true) := by
  refine ⟨?_, ?_, ?_⟩
  · rw [sg_special_get, sg_special_get_go_eq_nibble_go]
    exact hex_getD_prop _ (nibble_go_lt_16 _ _ 0 _ (by decide))
  · rw [sg_bases_get, sg_bases_get_go_eq_nibble_go]
    exact hex_getD_prop _ (nibble_go_lt_16 _ _ 0 _ (by decide))
  · rw [sg_roads_get, sg_roads_get_go_eq_nibble_go]
    exact hex_getD_prop _ (nibble_go_lt_16 _ _ 0 _ (by decide))

/- =======================================================================
   Claim C9.
   ======================================================================= -/

/-- Counterexample for C9 as stated: activity2char is not injective on
the valid (non-LAST) activity values — ACTIVITY_UNKNOWN and
ACTIVITY_PATROL_UNUSED are distinct valid members that both encode as
the placeholder '?'. -/
theorem C9_activity2char_not_injective_cx :
    activity2char ACTIVITY_UNKNOWN = activity2char ACTIVITY_PATROL_UNUSED ∧
    ACTIVITY_UNKNOWN ≠ ACTIVITY_PATROL_UNUSED ∧
    ACTIVITY_UNKNOWN ≠ ACTIVITY_LAST ∧
    ACTIVITY_PATROL_UNUSED ≠ ACTIVITY_LAST := by
  decide

/-- Amended claim C9: order2char and dir2char are injective on the
valid values of their enum families; activity2char is injective on the
valid values other than ACTIVITY_UNKNOWN and ACTIVITY_PATROL_UNUSED,
which both encode as the non-restorable placeholder '?'. -/
theorem C9_encoding_injectivity :
    (∀ a b : unit_orders, a ≠ ORDER_LAST → b ≠ ORDER_LAST →
      order2char a = order2char b → a = b) ∧
    (∀ a b : direction8, dir2char a = dir2char b → a = b) ∧
    (∀ a b : unit_activity,
      a ≠ ACTIVITY_LAST → a ≠ ACTIVITY_UNKNOWN → a ≠ ACTIVITY_PATROL_UNUSED →
      b ≠ ACTIVITY_LAST → b ≠ ACTIVITY_UNKNOWN → b ≠ ACTIVITY_PATROL_UNUSED →
      activity2char a = activity2char b → a = b) := by
  refine ⟨?_, ?_, ?_⟩ <;> decide

/-- Witness for C9: the hypotheses are dischargeable at concrete enum
values. -/
theorem C9_encoding_injectivity_witness :
    ORDER_MOVE ≠ ORDER_LAST ∧ DIR8_NORTH = DIR8_NORTH ∧
    (ACTIVITY_MINE : unit_activity) = ACTIVITY_MINE := by
  refine ⟨by decide, C9_encoding_injectivity.2.1 DIR8_NORTH DIR8_NORTH rfl, ?_⟩
  exact C9_encoding_injectivity.2.2 ACTIVITY_MINE ACTIVITY_MINE
    (by decide) (by decide) (by decide) (by decide) (by decide) (by decide) rfl

/- =======================================================================
   Claim C4.
   ======================================================================= -/

/-- Claim C4 fails on the code: for num_base_types = 5 the group list is
[0, 1] and in group j = 1 the window builder puts 5, 6, 7 — class
indices ≥ 5 — into slots 1–3 instead of the sentinel -1 (the source
tests `4 * j + 1 > num`, which is false for every iterated group, so
the sentinel branch is dead); sg_bases_get consequently queries the
bit-set at the out-of-range index 5, visible in the produced nibble.
The roads builder has the identical defect. -/
theorem C4_bases_window_out_of_range_eval :
    halfbyte_groups 5 = [0, 1] ∧
    sg_save_bases_mod 5 1 0 = 4 ∧
    sg_save_bases_mod 5 1 1 = 5 ∧
    sg_save_bases_mod 5 1 2 = 6 ∧
    sg_save_bases_mod 5 1 3 = 7 ∧
    (∀ l : Fin 4, sg_save_bases_mod 5 1 l ≠ -1) ∧
    sg_bases_get (fun b => decide (b = 5)) (sg_save_bases_mod 5 1) = '2' ∧
    sg_save_roads_mod 5 1 1 = 5 := by
  decide

/- =======================================================================
   Claim C1.
   ======================================================================= -/

theorem load_map_row_apply (xsize y : Nat) (line : List Char)
    (st : Nat × Nat → Char) (a b : Nat) :
    load_map_row xsize grid_set y line st (a, b) =
      if b = y ∧ a < xsize then line.getD a ' ' else st (a, b) := by
  induction xsize generalizing st with
  | zero => simp [load_map_row]
  | succ n ih
  => rw [load_map_row, List.range_succ, List.foldl_append]
     rw [show ((List.range n).foldl (fun st x => grid_set st x y (line.getD x ' ')) st)
        = load_map_row n grid_set y line st from rfl]
     simp only [List.foldl_cons, List.foldl_nil]
     rw [grid_set]
     rcases eq_or_ne (a, b) (n, y) with he | he
     · rw [Function.update_apply, if_pos he]
       rcases Prod.mk.injEq .. ▸ he with ⟨h1, h2⟩
       simp [h1, h2]
     · rw [Function.update_apply, if_neg he, ih]
       rcases eq_or_ne b y with hb | hb
       · rcases Nat.lt_or_ge a n with ha | ha
         · simp [hb, ha, Nat.lt_succ_of_lt ha]
         · have han : a ≠ n := fun hc => he (by simp [hc, hb])
           have : ¬ a < n + 1 := by omega
           simp [hb, Nat.not_lt.mpr ha, this]
       · simp [hb]

theorem LOAD_go_fst_untouched (xsize : Nat) (lookup : Nat → Option String)
    (rows : List Nat) (acc : (Nat × Nat → Char) × Bool) (a b : Nat)
    (hb : b ∉ rows) :
    (LOAD_MAP_CHAR_go xsize lookup grid_set rows acc).1 (a, b) = acc.1 (a, b) := by
  induction rows generalizing acc with
  | nil => rfl
  | cons y rest ih =>
    have hby : b ≠ y := fun hc => hb (by simp [hc])
    have hbr : b ∉ rest := fun hc => hb (List.mem_cons_of_mem _ hc)
    cases hline : lookup y with
    | none =>
      simp only [LOAD_MAP_CHAR_go, hline]
      exact ih _ hbr
    | some line =>
      simp only [LOAD_MAP_CHAR_go, hline]
      split
      · exact ih _ hbr
      · rw [ih _ hbr]
        show load_map_row xsize grid_set y line.toList acc.1 (a, b) = acc.1 (a, b)
        rw [load_map_row_apply]
        simp [hby]

theorem LOAD_go_snd_mono (xsize : Nat) (lookup : Nat → Option String)
    (rows : List Nat) (acc : (Nat × Nat → Char) × Bool) (h : acc.2 = true) :
    (LOAD_MAP_CHAR_go xsize lookup grid_set rows acc).2 = true := by
  induction rows generalizing acc with
  | nil => exact h
  | cons y rest ih =>
    cases hline : lookup y with
    | none =>
      simp only [LOAD_MAP_CHAR_go, hline]
      exact ih _ rfl
    | some line =>
      simp only [LOAD_MAP_CHAR_go, hline]
      split
      · exact ih _ rfl
      · exact ih _ h

theorem LOAD_go_good_row (xsize : Nat) (lookup : Nat → Option String)
    (rows : List Nat) (acc : (Nat × Nat → Char) × Bool) (y : Nat)
    (hnd : rows.Nodup) (hy : y ∈ rows) (line : String)
    (hline : lookup y = some line) (hlen : line.length = xsize)
    (x : Nat) (hx : x < xsize) :
    (LOAD_MAP_CHAR_go xsize lookup grid_set rows acc).1 (x, y) =
      line.toList.getD x ' ' := by
  induction rows generalizing acc with
  | nil => cases hy
  | cons r rest ih =>
    have hnd2 := List.nodup_cons.mp hnd
    rcases List.mem_cons.mp hy with he | hm
    · subst he
      simp only [LOAD_MAP_CHAR_go, hline]
      rw [if_neg (by simp [hlen])]
      rw [LOAD_go_fst_untouched _ _ _ _ _ _ hnd2.1]
      show load_map_row xsize grid_set y line.toList acc.1 (x, y) = line.toList.getD x ' '
      rw [load_map_row_apply]
      simp [hx]
    · cases hlr : lookup r with
      | none =>
        simp only [LOAD_MAP_CHAR_go, hlr]
        exact ih _ hnd2.2 hm
      | some l2 =>
        simp only [LOAD_MAP_CHAR_go, hlr]
        split
        · exact ih _ hnd2.2 hm
        · exact ih _ hnd2.2 hm

theorem LOAD_go_bad_row (xsize : Nat) (lookup : Nat → Option String)
    (rows : List Nat) (acc : (Nat × Nat → Char) × Bool) (y : Nat)
    (hnd : rows.Nodup) (hy : y ∈ rows)
    (hbad : lookup y = none ∨ ∃ line, lookup y = some line ∧ line.length ≠ xsize)
    (x : Nat) :
    (LOAD_MAP_CHAR_go xsize lookup grid_set rows acc).1 (x, y) = acc.1 (x, y) ∧
    (LOAD_MAP_CHAR_go xsize lookup grid_set rows acc).2 = true := by
  induction rows generalizing acc with
  | nil => cases hy
  | cons r rest ih =>
    have hnd2 := List.nodup_cons.mp hnd
    rcases List.mem_cons.mp hy with he | hm
    · subst he
      rcases hbad with hnone | ⟨line, hline, hlen⟩
      · simp only [LOAD_MAP_CHAR_go, hnone]
        exact ⟨LOAD_go_fst_untouched _ _ _ _ _ _ hnd2.1,
          LOAD_go_snd_mono _ _ _ _ rfl⟩
      · simp only [LOAD_MAP_CHAR_go, hline]
        rw [if_pos hlen]
        exact ⟨LOAD_go_fst_untouched _ _ _ _ _ _ hnd2.1,
          LOAD_go_snd_mono _ _ _ _ rfl⟩
    · have hry : r ≠ y := fun hc => hnd2.1 (hc ▸ hm)
      cases hlr : lookup r with
      | none =>
        simp only [LOAD_MAP_CHAR_go, hlr]
        exact ih _ hnd2.2 hm
      | some l2 =>
        simp only [LOAD_MAP_CHAR_go, hlr]
        split
        · exact ih _ hnd2.2 hm
        · have hrec := ih (load_map_row xsize grid_set r l2.toList acc.1, acc.2) hnd2.2 hm
          constructor
          · rw [hrec.1]
            show load_map_row xsize grid_set r l2.toList acc.1 (x, y) = acc.1 (x, y)
            rw [load_map_row_apply]
            simp [Ne.symm hry]
          · exact hrec.2

/-- Counterexample for C1 as stated: a 2×1 map whose only line is
truncated to length W-1 = 1.  The claim predicts the first character
'a' is decoded into the first tile (state (['a','?'] as a grid) plus a
warning); the code instead discards the whole row, leaving every tile
of the row at its prior value. -/
theorem C1_short_line_cx :
    LOAD_MAP_CHAR 2 1 (fun _ => some "a")
      (fun (st : List Char) x _ c => st.set x c) ['?', '?'] = (['?', '?'], true) ∧
    LOAD_MAP_CHAR 2 1 (fun _ => some "a")
      (fun (st : List Char) x _ c => st.set x c) ['?', '?'] ≠ (['a', '?'], true) := by
  constructor
  · rfl
  · decide

/-- Amended claim C1: for every grid attribute class and every row, a
stored line that is missing or truncated (length ≠ W) makes loading log
a warning and skip that row as a whole — all W tiles of the row keep
their previous (default) values, none of the line's characters is
decoded — while every row with a well-formed line is still decoded
character by character, and loading continues over all rows rather than
aborting. -/
theorem C1_short_line_row_skipped (xsize ysize : Nat)
    (lookup : Nat → Option String) (g0 : Nat × Nat → Char) (y : Nat)
    (hy : y < ysize) :
    (∀ line, lookup y = some line → line.length = xsize → ∀ x, x < xsize →
      (LOAD_MAP_CHAR xsize ysize lookup grid_set g0).1 (x, y) =
        line.toList.getD x ' ') ∧
    ((lookup y = none ∨ ∃ line, lookup y = some line ∧ line.length ≠ xsize) →
      ∀ x, (LOAD_MAP_CHAR xsize ysize lookup grid_set g0).1 (x, y) = g0 (x, y) ∧
        (LOAD_MAP_CHAR xsize ysize lookup grid_set g0).2 = true) := by
  constructor
  · intro line hline hlen x hx
    exact LOAD_go_good_row xsize lookup (List.range ysize) (g0, false) y
      (List.nodup_range _) (List.mem_range.mpr hy) line hline hlen x hx
  · intro hbad x
    exact LOAD_go_bad_row xsize lookup (List.range ysize) (g0, false) y
      (List.nodup_range _) (List.mem_range.mpr hy) hbad x

/-- Witness for C1 (amended): a 2×2 map whose row 0 is truncated and
whose row 1 is well-formed; row 0 keeps its defaults, row 1 decodes. -/
theorem C1_short_line_row_skipped_witness :
    (LOAD_MAP_CHAR 2 2 (fun r => if r = 0 then some "a" else some "gh")
      grid_set (fun _ => '?')).1 (0, 0) = '?' ∧
    (LOAD_MAP_CHAR 2 2 (fun r => if r = 0 then some "a" else some "gh")
      grid_set (fun _ => '?')).1 (1, 1) = 'h' ∧
    (LOAD_MAP_CHAR 2 2 (fun r => if r = 0 then some "a" else some "gh")
      grid_set (fun _ => '?')).2 = true := by
  have h0 := C1_short_line_row_skipped 2 2
    (fun r => if r = 0 then some "a" else some "gh") (fun _ => '?') 0 (by decide)
  have h1 := C1_short_line_row_skipped 2 2
    (fun r => if r = 0 then some "a" else some "gh") (fun _ => '?') 1 (by decide)
  refine ⟨?_, ?_, ?_⟩
  · exact (h0.2 (Or.inr ⟨"a", rfl, by decide⟩) 0).1
  · exact (h1.1 "gh" rfl (by decide) 1 (by decide)).trans (by decide)
  · exact (h0.2 (Or.inr ⟨"a", rfl, by decide⟩) 0).2

/- =======================================================================
   Claim C5.
   ======================================================================= -/

theorem foldl_concat2 (g h : Nat → List Char) (l : List Nat) (init : List Char) :
    l.foldl (fun line x => line ++ g x ++ h x) init
      = init ++ l.flatMap (fun x => g x ++ h x) := by
  induction l generalizing init with
  | nil => simp
  | cons x rest ih =>
    rw [List.foldl_cons, ih]
    simp [List.append_assoc]

theorem flatMap_congr_mem {α β : Type} {l : List α} {f g : α → List β}
    (h : ∀ x ∈ l, f x = g x) : l.flatMap f = l.flatMap g := by
  induction l with
  | nil => rfl
  | cons x rest ih =>
    simp only [List.flatMap_cons]
    rw [h x (List.mem_cons_self _ _), ih (fun x hx => h x (List.mem_cons_of_mem _ hx))]

theorem flatMap_comma_shift (ts : List (List Char)) :
    ts.flatMap (fun u => ',' :: u) ++ [','] =
      ',' :: ts.flatMap (fun t => t ++ [',']) := by
  induction ts with
  | nil => rfl
  | cons t rest ih => simp [List.append_assoc, ih]

theorem flatMap_of_map (l : List Nat) (tok : Nat → List Char) :
    (l.map tok).flatMap (fun u => u ++ [',']) = l.flatMap (fun x => tok x ++ [',']) := by
  induction l with
  | nil => rfl
  | cons x rest ih => simp [ih]

theorem commaJoin_concat (ts : List (List Char)) (t : List Char) :
    commaJoin (ts ++ [t]) = ts.flatMap (fun u => u ++ [',']) ++ t := by
  cases ts with
  | nil => simp [commaJoin]
  | cons t0 rest =>
    show t0 ++ (rest ++ [t]).flatMap (fun u => ',' :: u)
        = (t0 :: rest).flatMap (fun u => u ++ [',']) ++ t
    rw [List.flatMap_append, List.flatMap_cons, List.flatMap_nil, List.append_nil,
      List.flatMap_cons]
    rw [show (',' :: t : List Char) = [','] ++ t from rfl]
    rw [← List.append_assoc ((rest.flatMap fun u => ',' :: u)) [','] t,
      flatMap_comma_shift]
    rw [show (',' :: rest.flatMap fun u => u ++ [','])
      = [','] ++ rest.flatMap (fun u => u ++ [',']) from rfl]
    simp [List.append_assoc]

theorem sepAll_eq_commaJoin_comma (ts : List (List Char)) (h : ts ≠ []) :
    ts.flatMap (fun u => u ++ [',']) = commaJoin ts ++ [','] := by
  cases ts with
  | nil => exact absurd rfl h
  | cons t rest =>
    rw [List.flatMap_cons,
      show commaJoin (t :: rest) = t ++ rest.flatMap (fun u => ',' :: u) from rfl,
      List.append_assoc, List.append_assoc, flatMap_comma_shift]
    rfl

theorem line_fold_eq_commaJoin (tok : Nat → List Char) (wdt : Nat) :
    line_fold tok wdt = commaJoin ((List.range wdt).map tok) := by
  cases wdt with
  | zero => rfl
  | succ n =>
    rw [line_fold, List.range_succ, List.foldl_append, foldl_concat2, foldl_concat2]
    simp only [List.flatMap_cons, List.flatMap_nil, List.append_nil, List.nil_append]
    rw [if_neg (by omega)]
    rw [flatMap_congr_mem (g := fun x => tok x ++ [','])
      (fun x hx => by
        have hxn : x < n := List.mem_range.mp hx
        simp [show x + 1 < n + 1 by omega])]
    rw [List.map_append, List.map_cons, List.map_nil, commaJoin_concat,
      flatMap_of_map]
    simp

theorem worked_line_fold_eq (tok : Nat → List Char) (wdt : Nat) :
    worked_line_fold tok wdt
      = ((List.range wdt).map tok).flatMap (fun u => u ++ [',']) := by
  rw [worked_line_fold, foldl_concat2]
  rw [flatMap_congr_mem (g := fun x => tok x ++ [','])
    (fun x hx => by simp [List.mem_range.mp hx])]
  rw [flatMap_of_map]
  simp

theorem count_comma_cons_flatMap (ts : List (List Char))
    (h : ∀ t ∈ ts, (',' : Char) ∉ t) :
    (ts.flatMap (fun u => ',' :: u)).count ',' = ts.length := by
  induction ts with
  | nil => rfl
  | cons u r ih =>
    simp only [List.flatMap_cons, List.count_append, List.length_cons, List.count_cons]
    rw [ih (fun v hv => h v (List.mem_cons_of_mem _ hv))]
    rw [List.count_eq_zero.mpr (h u (List.mem_cons_self _ _))]
    simp
    omega

theorem count_comma_commaJoin (ts : List (List Char))
    (h : ∀ t ∈ ts, (',' : Char) ∉ t) :
    (commaJoin ts).count ',' = ts.length - 1 := by
  cases ts with
  | nil => rfl
  | cons t rest =>
    rw [show commaJoin (t :: rest) = t ++ rest.flatMap (fun u => ',' :: u) from rfl]
    rw [List.count_append, List.count_eq_zero.mpr (h t (List.mem_cons_self _ _))]
    rw [count_comma_cons_flatMap rest (fun v hv => h v (List.mem_cons_of_mem _ hv))]
    simp

theorem natDigit_range (d : Nat) (h : d < 10) :
    48 ≤ (natDigit d).toNat ∧ (natDigit d).toNat ≤ 57 := by
  interval_cases d <;> decide

theorem decList_digits (n : Nat) :
    ∀ c ∈ decList n, 48 ≤ c.toNat ∧ c.toNat ≤ 57 := by
  induction n using Nat.strong_induction_on with
  | _ n ih =>
    intro c hc
    rw [decList] at hc
    split at hc
    · rcases List.mem_singleton.mp hc with rfl
      exact natDigit_range n (by omega)
    · rcases List.mem_append.mp hc with hm | hm
      · exact ih (n / 10) (Nat.div_lt_self (by omega) (by omega)) c hm
      · rcases List.mem_singleton.mp hm with rfl
        exact natDigit_range (n % 10) (Nat.mod_lt _ (by omega))

theorem comma_not_mem_decList (n : Nat) : (',' : Char) ∉ decList n := by
  intro hc
  have := decList_digits n ',' hc
  revert this
  decide

theorem comma_not_mem_owner_token (s : Savedata) (t : Tile) :
    (',' : Char) ∉ owner_token s t := by
  rw [owner_token]
  split
  · decide
  · exact comma_not_mem_decList _

theorem comma_not_mem_claimer_token (t : Tile) :
    (',' : Char) ∉ claimer_token t := by
  rw [claimer_token]
  cases t.claimer with
  | none => decide
  | some idx => exact comma_not_mem_decList _

theorem comma_not_mem_worked_token (t : Tile) :
    (',' : Char) ∉ worked_token t := by
  rw [worked_token]
  cases t.worked with
  | none => decide
  | some cid => exact comma_not_mem_decList _

/-- Counterexample for C5 as stated: on a 2×1 map with no worked tiles
the map.worked line written for row 0 is "-,-," — its two tokens are
followed by W = 2 commas, one of them trailing, not W - 1 = 1. -/
theorem C5_worked_trailing_comma_cx :
    (sg_save_map_worked { trivWorld with xsize := 2, ysize := 1 } s_ok).file
      = [(key2 "map.worked%04d" [0], SecValue.str "-,-,")] ∧
    ("-,-,".toList.count ',' = 2) ∧ ¬ (2 : Nat) = 2 - 1 := by
  refine ⟨?_, by decide, by decide⟩
  rfl

/-- Amended claim C5: for every map row y, the ownership (map.owner) and
claimer-source (map.source) lines consist of exactly W tokens — each
token "-" or a decimal id — joined by exactly W-1 comma separators with
no leading or trailing separator; the worked-by (map.worked) lines
consist of the same W tokens but each token is followed by a comma
(the source tests `x < map.xsize`, always true), so they carry W commas
including a trailing one. -/
theorem C5_owner_source_worked_lines (w : World) (s : Savedata)
    (hsucc : s.sg_success = true)
    (hns : ¬ (s.scenario = true ∧ s.save_players = false)) (hx : 0 < w.xsize) :
    ((sg_save_map_owner w s).file = s.file ++
      (List.range w.ysize).map (fun y =>
        eStr "map.owner%04d" [Int.ofNat y]
          ⟨commaJoin ((List.range w.xsize).map (fun x => owner_token s (w.tiles x y)))⟩) ++
      (List.range w.ysize).map (fun y =>
        eStr "map.source%04d" [Int.ofNat y]
          ⟨commaJoin ((List.range w.xsize).map (fun x => claimer_token (w.tiles x y)))⟩)) ∧
    ((sg_save_map_worked w s).file = s.file ++
      (List.range w.ysize).map (fun y =>
        eStr "map.worked%04d" [Int.ofNat y]
          ⟨commaJoin ((List.range w.xsize).map (fun x => worked_token (w.tiles x y))) ++ [',']⟩)) ∧
    (∀ y, ((List.range w.xsize).map (fun x => owner_token s (w.tiles x y))).length = w.xsize ∧
      ((List.range w.xsize).map (fun x => claimer_token (w.tiles x y))).length = w.xsize ∧
      ((List.range w.xsize).map (fun x => worked_token (w.tiles x y))).length = w.xsize) ∧
    (∀ y x, (owner_token s (w.tiles x y) = ['-'] ∨
        ∃ n, owner_token s (w.tiles x y) = decList n) ∧
      (claimer_token (w.tiles x y) = ['-'] ∨
        ∃ n, claimer_token (w.tiles x y) = decList n) ∧
      (worked_token (w.tiles x y) = ['-'] ∨
        ∃ n, worked_token (w.tiles x y) = decList n)) ∧
    (∀ y,
      (commaJoin ((List.range w.xsize).map (fun x => owner_token s (w.tiles x y)))).count ','
        = w.xsize - 1 ∧
      (commaJoin ((List.range w.xsize).map (fun x => claimer_token (w.tiles x y)))).count ','
        = w.xsize - 1 ∧
      (commaJoin ((List.range w.xsize).map (fun x => worked_token (w.tiles x y))) ++ [',']).count ','
        = w.xsize) := by
  have hguard : ¬ (s.scenario && !s.save_players) = true := by
    intro hc
    rcases Bool.and_eq_true .. ▸ hc with ⟨h1, h2⟩
    exact hns ⟨h1, by simpa using h2⟩
  refine ⟨?_, ?_, ?_, ?_, ?_⟩
  · rw [sg_save_map_owner, hsucc]
    simp only [Bool.not_true, Bool.false_eq_true, if_false, hguard, if_neg hguard]
    congr 1
    · congr 1
      apply List.map_congr_left
      intro y _
      rw [eStr, eStr, line_fold_eq_commaJoin]
    · apply List.map_congr_left
      intro y _
      rw [eStr, eStr, line_fold_eq_commaJoin]
  · rw [sg_save_map_worked, hsucc]
    simp only [Bool.not_true, Bool.false_eq_true, if_false, if_neg hguard]
    congr 1
    apply List.map_congr_left
    intro y _
    rw [eStr, eStr, worked_line_fold_eq]
    rw [sepAll_eq_commaJoin_comma _ (by
      intro hc
      have := congrArg List.length hc
      simp at this
      omega)]
  · intro y
    simp
  · intro y x
    refine ⟨?_, ?_, ?_⟩
    · rw [owner_token]
      split
      · exact Or.inl rfl
      · exact Or.inr ⟨_, rfl⟩
    · rw [claimer_token]
      cases (w.tiles x y).claimer
      · exact Or.inl rfl
      · exact Or.inr ⟨_, rfl⟩
    · rw [worked_token]
      cases (w.tiles x y).worked
      · exact Or.inl rfl
      · exact Or.inr ⟨_, rfl⟩
  · intro y
    refine ⟨?_, ?_, ?_⟩
    · rw [count_comma_commaJoin]
      · simp
      · intro t ht
        rcases List.mem_map.mp ht with ⟨x, _, rfl⟩
        exact comma_not_mem_owner_token s _
    · rw [count_comma_commaJoin]
      · simp
      · intro t ht
        rcases List.mem_map.mp ht with ⟨x, _, rfl⟩
        exact comma_not_mem_claimer_token _
    · rw [List.count_append, count_comma_commaJoin]
      · simp
        omega
      · intro t ht
        rcases List.mem_map.mp ht with ⟨x, _, rfl⟩
        exact comma_not_mem_worked_token _

/-- Witness for C5 (amended) on a concrete 2×1 map. -/
theorem C5_owner_source_worked_lines_witness :
    (sg_save_map_owner { trivWorld with xsize := 2, ysize := 1 } s_ok).file
      = [(key2 "map.owner%04d" [0], SecValue.str "-,-"),
         (key2 "map.source%04d" [0], SecValue.str "-,-")] ∧
    (sg_save_map_worked { trivWorld with xsize := 2, ysize := 1 } s_ok).file
      = [(key2 "map.worked%04d" [0], SecValue.str "-,-,")] := by
  have h := C5_owner_source_worked_lines { trivWorld with xsize := 2, ysize := 1 } s_ok
    rfl (by intro hc; exact absurd hc.2 (by decide)) (by decide)
  constructor
  · rw [h.1]
    rfl
  · rw [h.2.1]
    rfl

/- =======================================================================
   Claim C2.
   ======================================================================= -/

/-- Claim C2: once the cumulative flag is false, every sg_save_* stage
returns its state unchanged at entry (no key is written, no savedata
field touched), while the top-level savegame2_save_real is by definition
the unconditional composition of all stages in their fixed order — every
remaining stage is still invoked — and, being a total function, it
returns normally with the flag surfaced in the final state. -/
theorem C2_failure_flag_discipline :
    (∀ (w : World) (s : Savedata), s.sg_success = false →
      sg_save_scenario w s = s ∧
      (∀ o, sg_save_savefile_options o s = s) ∧
      sg_save_savefile w s = s ∧
      sg_save_game w s = s ∧
      sg_save_random w s = s ∧
      sg_save_script w s = s ∧
      sg_save_settings w s = s ∧
      sg_save_map_tiles w s = s ∧
      sg_save_map_startpos w s = s ∧
      sg_save_map_tiles_bases w s = s ∧
      sg_save_map_tiles_roads w s = s ∧
      (∀ ro, sg_save_map_tiles_specials w ro s = s) ∧
      sg_save_map_tiles_resources w s = s ∧
      sg_save_map_owner w s = s ∧
      sg_save_map_worked w s = s ∧
      sg_save_map_known w s = s ∧
      sg_save_map w s = s ∧
      (∀ p, sg_save_player_main w p s = s) ∧
      (∀ p, sg_save_player_cities w p s = s) ∧
      (∀ oc om p, sg_save_player_units w oc om p s = s) ∧
      (∀ p, sg_save_player_attributes w p s = s) ∧
      sg_save_players w s = s ∧
      sg_save_mapimg w s = s ∧
      sg_save_sanitycheck w s = s) ∧
    (∀ (w : World) (file : SecFile) (reason : String) (scenario : Bool),
      savegame2_save_real w file reason scenario =
        sg_save_sanitycheck w (sg_save_mapimg w (sg_save_players w (sg_save_map w
          (sg_save_settings w (sg_save_script w (sg_save_random w (sg_save_game w
            (sg_save_savefile w (sg_save_scenario w
              { savedata_new file reason scenario with sg_success := true })))))))))) := by
  constructor
  · intro w s h
    refine ⟨by simp [sg_save_scenario, h], fun o => by simp [sg_save_savefile_options, h],
      by simp [sg_save_savefile, h], by simp [sg_save_game, h],
      by simp [sg_save_random, h], by simp [sg_save_script, h],
      by simp [sg_save_settings, h], by simp [sg_save_map_tiles, h],
      by simp [sg_save_map_startpos, h], by simp [sg_save_map_tiles_bases, h],
      by simp [sg_save_map_tiles_roads, h],
      fun ro => by simp [sg_save_map_tiles_specials, h],
      by simp [sg_save_map_tiles_resources, h], by simp [sg_save_map_owner, h],
      by simp [sg_save_map_worked, h], by simp [sg_save_map_known, h],
      by simp [sg_save_map, h], fun p => by simp [sg_save_player_main, h],
      fun p => by simp [sg_save_player_cities, h],
      fun oc om p => by simp [sg_save_player_units, h],
      fun p => by simp [sg_save_player_attributes, h],
      by simp [sg_save_players, h], by simp [sg_save_mapimg, h],
      by simp [sg_save_sanitycheck, h]⟩
  · intro w file reason scenario
    rfl

/-- Witness for C2: with the flag already cleared, representative stages
leave the concrete state untouched. -/
theorem C2_failure_flag_discipline_witness :
    sg_save_scenario trivWorld s_fail = s_fail ∧
    sg_save_map trivWorld s_fail = s_fail ∧
    sg_save_players trivWorld s_fail = s_fail ∧
    sg_save_sanitycheck trivWorld s_fail = s_fail := by
  obtain ⟨hscn, _hopt, _hsf, _hgame, _hrand, _hscript, _hset, _htiles, _hstart,
    _hbases, _hroads, _hspec, _hres, _howner, _hworked, _hknown, hmap, _hpm,
    _hpc, _hpu, _hpa, hplayers, _hmapimg, hsan⟩ :=
    C2_failure_flag_discipline.1 trivWorld s_fail rfl
  exact ⟨hscn, hmap, hplayers, hsan⟩

/- =======================================================================
   Claim C6.
   ======================================================================= -/

theorem foldl_insert2_flatMap {β : Type} (k1 k2 : β → SecKey) (v1 v2 : β → SecValue)
    (l : List β) (f : SecFile) :
    l.foldl (fun f e => secfile_insert (secfile_insert f (k1 e) (v1 e)) (k2 e) (v2 e)) f
      = f ++ l.flatMap (fun e => [(k1 e, v1 e), (k2 e, v2 e)]) := by
  induction l generalizing f with
  | nil => simp
  | cons e rest ih =>
    rw [List.foldl_cons, ih]
    simp [secfile_insert, List.append_assoc]

theorem worklist_save_eq (file : SecFile) (pwl : List Universal) (M : Nat)
    (pathT : String) (pathA : List Int) (hM : M ≤ MAX_LEN_WORKLIST) :
    worklist_save file pwl M pathT pathA
      = file ++ [(⟨pathT ++ ".wl_length", pathA, []⟩, SecValue.int pwl.length)]
          ++ wl_block pathT pathA pwl M := by
  rw [worklist_save]
  rw [if_neg (by simp [hM])]
  rw [foldl_insert2_flatMap
    (fun iu : Nat × Universal => ⟨pathT ++ ".wl_kind%d", pathA ++ [Int.ofNat iu.1], []⟩)
    (fun iu : Nat × Universal => ⟨pathT ++ ".wl_value%d", pathA ++ [Int.ofNat iu.1], []⟩)
    (fun iu : Nat × Universal => SecValue.str (universal_type_rule_name iu.2))
    (fun iu : Nat × Universal => SecValue.str (universal_rule_name iu.2))]
  rw [foldl_insert2_flatMap
    (fun d : Nat => ⟨pathT ++ ".wl_kind%d", pathA ++ [Int.ofNat d], []⟩)
    (fun d : Nat => ⟨pathT ++ ".wl_value%d", pathA ++ [Int.ofNat d], []⟩)
    (fun _ : Nat => SecValue.str "")
    (fun _ : Nat => SecValue.str "")]
  simp [secfile_insert, wl_block, List.append_assoc]

theorem save_city_eq (w : World) (M : Nat) (nations : Nat → Bool) (pn : Int)
    (i : Nat) (c : City) (s : Savedata)
    (himpr : improvement_count w < MAX_NUM_ITEMS + 1)
    (hM : M ≤ MAX_LEN_WORKLIST) :
    save_city w M nations pn i c s
      = { s with file := s.file ++ city_block w M nations pn i c } := by
  rw [save_city]
  rw [if_neg (by simp [himpr])]
  simp only [worklist_save_eq _ _ _ _ _ hM, city_block, secfile_insert,
    List.append_assoc]
  rfl

theorem save_cities_go_eq (w : World) (M : Nat) (nations : Nat → Bool) (pn : Int)
    (l : List (Nat × City)) (s : Savedata) (hsucc : s.sg_success = true)
    (himpr : improvement_count w < MAX_NUM_ITEMS + 1)
    (hM : M ≤ MAX_LEN_WORKLIST) :
    save_cities_go w M nations pn l s
      = { s with file := s.file ++
            l.flatMap (fun ic => city_block w M nations pn ic.1 ic.2) } := by
  induction l generalizing s with
  | nil => simp [save_cities_go]
  | cons ic rest ih =>
    rw [save_cities_go, save_city_eq w M nations pn ic.1 ic.2 s himpr hM]
    rw [if_pos (by simpa using hsucc)]
    rw [ih _ (by simpa using hsucc)]
    simp [List.append_assoc]

theorem le_wlist_foldl (cities : List City) : ∀ m : Nat,
    m ≤ cities.foldl (fun m c => if c.worklist.length > m then c.worklist.length else m) m := by
  induction cities with
  | nil => intro m; exact Nat.le_refl m
  | cons c rest ih =>
    intro m
    rw [List.foldl_cons]
    refine Nat.le_trans ?_ (ih _)
    show m ≤ if c.worklist.length > m then c.worklist.length else m
    split <;> omega

theorem wlist_max_length_ge (cities : List City) (c : City) (hc : c ∈ cities) :
    c.worklist.length ≤ wlist_max_length cities := by
  rw [wlist_max_length]
  suffices hgen : ∀ (l : List City) (m : Nat), c ∈ l →
      c.worklist.length ≤
        l.foldl (fun m c => if c.worklist.length > m then c.worklist.length else m) m from
    hgen cities 0 hc
  intro l
  induction l with
  | nil => intro m hm; cases hm
  | cons c0 rest ih =>
    intro m hm
    rw [List.foldl_cons]
    rcases List.mem_cons.mp hm with rfl | hm2
    · refine Nat.le_trans ?_ (le_wlist_foldl rest _)
      show c.worklist.length ≤ if c.worklist.length > m then c.worklist.length else m
      split <;> omega
    · exact ih _ hm2

theorem wlist_max_length_le (cities : List City) (B : Nat)
    (h : ∀ c ∈ cities, c.worklist.length ≤ B) : wlist_max_length cities ≤ B := by
  rw [wlist_max_length]
  suffices hgen : ∀ m : Nat, m ≤ B →
      cities.foldl (fun m c => if c.worklist.length > m then c.worklist.length else m) m ≤ B from
    hgen 0 (Nat.zero_le B)
  induction cities with
  | nil => intro m hm; exact hm
  | cons c rest ih =>
    intro m hm
    rw [List.foldl_cons]
    refine ih (fun c2 hc2 => h c2 (List.mem_cons_of_mem _ hc2)) _ ?_
    have := h c (List.mem_cons_self _ _)
    split <;> omega

theorem wl_block_covers_aux (pathT : String) (pathA : List Int)
    (l : List Universal) : ∀ (n rem : Nat),
    (List.enumFrom n l).flatMap (fun iu =>
        ([(SecKey.mk (pathT ++ ".wl_kind%d") (pathA ++ [Int.ofNat iu.1]) [],
          SecValue.str (universal_type_rule_name iu.2)),
         (SecKey.mk (pathT ++ ".wl_value%d") (pathA ++ [Int.ofNat iu.1]) [],
          SecValue.str (universal_rule_name iu.2))] : SecFile))
      ++ (List.range' (n + l.length) rem).flatMap (fun d =>
        ([(SecKey.mk (pathT ++ ".wl_kind%d") (pathA ++ [Int.ofNat d]) [], SecValue.str ""),
         (SecKey.mk (pathT ++ ".wl_value%d") (pathA ++ [Int.ofNat d]) [], SecValue.str "")] : SecFile))
    = (List.range' n (l.length + rem)).flatMap (fun d =>
        ([(SecKey.mk (pathT ++ ".wl_kind%d") (pathA ++ [Int.ofNat d]) [],
          SecValue.str (((l.get? (d - n)).map universal_type_rule_name).getD "")),
         (SecKey.mk (pathT ++ ".wl_value%d") (pathA ++ [Int.ofNat d]) [],
          SecValue.str (((l.get? (d - n)).map universal_rule_name).getD ""))] : SecFile)) := by
  induction l with
  | nil =>
    intro n rem
    simp only [List.enumFrom, List.flatMap_nil, List.nil_append, List.length_nil,
      Nat.add_zero, Nat.zero_add]
    exact flatMap_congr_mem (fun d _ => by simp)
  | cons u rest ih =>
    intro n rem
    rw [show List.enumFrom n (u :: rest) = (n, u) :: List.enumFrom (n + 1) rest from rfl]
    rw [List.flatMap_cons]
    rw [show n + (u :: rest).length = (n + 1) + rest.length by
      simp [List.length_cons]
      omega]
    rw [List.append_assoc, ih (n + 1) rem]
    rw [show (u :: rest).length + rem = (rest.length + rem) + 1 by
      simp [List.length_cons]
      omega]
    rw [show List.range' n ((rest.length + rem) + 1)
      = n :: List.range' (n + 1) (rest.length + rem) from rfl]
    rw [List.flatMap_cons]
    congr 1
    · simp
    · exact flatMap_congr_mem (fun d hd => by
        have hdd : n + 1 ≤ d := (List.mem_range'_1.mp hd).1
        have hsub : d - n = (d - (n + 1)) + 1 := by omega
        simp [hsub])

/-- Claim C6: for a player whose cities are saved, with M the maximum
worklist length over the player's cities, the city loop appends one
city_block per city in which the worklist record exposes exactly M
slot-pairs — wl_kind d / wl_value d for 0 ≤ d < M, the first
length-many holding the entries' kind and rule names in order and the
rest the empty string in both slots. -/
theorem C6_worklist_rectangular (w : World) (plr : Player) (s : Savedata)
    (hsucc : s.sg_success = true)
    (hlen : ∀ c ∈ plr.cities, c.worklist.length ≤ MAX_LEN_WORKLIST)
    (himpr : improvement_count w < MAX_NUM_ITEMS + 1) :
    sg_save_player_cities w plr s
      = { s with file := s.file ++
          [eInt "player%d.ncities" [Int.ofNat plr.plrno] (plr.cities.length : Int)] ++
          plr.cities.enum.flatMap (fun ic =>
            city_block w (wlist_max_length plr.cities)
              (player_cities_nations w plr) (Int.ofNat plr.plrno) ic.1 ic.2) } ∧
    (∀ c ∈ plr.cities, c.worklist.length ≤ wlist_max_length plr.cities) ∧
    (∀ (i : Nat), ∀ c ∈ plr.cities,
      wl_block "player%d.c%d" [Int.ofNat plr.plrno, Int.ofNat i] c.worklist
          (wlist_max_length plr.cities)
        = (List.range (wlist_max_length plr.cities)).flatMap (fun d =>
            ([(SecKey.mk ("player%d.c%d" ++ ".wl_kind%d")
                 ([Int.ofNat plr.plrno, Int.ofNat i] ++ [Int.ofNat d]) [],
               SecValue.str (((c.worklist.get? d).map universal_type_rule_name).getD "")),
              (SecKey.mk ("player%d.c%d" ++ ".wl_value%d")
                 ([Int.ofNat plr.plrno, Int.ofNat i] ++ [Int.ofNat d]) [],
               SecValue.str (((c.worklist.get? d).map universal_rule_name).getD ""))] :
              SecFile))) := by
  have hM := wlist_max_length_le plr.cities MAX_LEN_WORKLIST hlen
  refine ⟨?_, fun c hc => wlist_max_length_ge _ c hc, ?_⟩
  · have h1 : sg_save_player_cities w plr s
        = save_cities_go w (wlist_max_length plr.cities) (player_cities_nations w plr)
            (Int.ofNat plr.plrno) plr.cities.enum
            { s with file := s.file ++
                [eInt "player%d.ncities" [Int.ofNat plr.plrno] (plr.cities.length : Int)] } := by
      rw [sg_save_player_cities]
      rw [if_neg (by simp [hsucc])]
    rw [h1, save_cities_go_eq _ _ _ _ _ _ (by simp [hsucc]) himpr hM]
  · intro i c hc
    have hle : c.worklist.length ≤ wlist_max_length plr.cities :=
      wlist_max_length_ge _ c hc
    have haux := wl_block_covers_aux "player%d.c%d"
      [Int.ofNat plr.plrno, Int.ofNat i] c.worklist 0
      (wlist_max_length plr.cities - c.worklist.length)
    rw [Nat.zero_add,
      show c.worklist.length + (wlist_max_length plr.cities - c.worklist.length)
        = wlist_max_length plr.cities by omega] at haux
    rw [wl_block]
    rw [show List.enum c.worklist = List.enumFrom 0 c.worklist from rfl]
    rw [haux, ← List.range_eq_range']
    exact flatMap_congr_mem (fun d _ => by simp)

/-- Witness for C6: a player with two cities of worklist lengths 0 and
3; both saved worklist records expose exactly 3 slot-pairs, the unused
ones as empty-string placeholders. -/
theorem C6_worklist_rectangular_witness :
    wl_block "player%d.c%d" [Int.ofNat 0, Int.ofNat 0] city0.worklist
        (wlist_max_length plr2.cities)
      = [(⟨"player%d.c%d.wl_kind%d", [0, 0, 0], []⟩, SecValue.str ""),
         (⟨"player%d.c%d.wl_value%d", [0, 0, 0], []⟩, SecValue.str ""),
         (⟨"player%d.c%d.wl_kind%d", [0, 0, 1], []⟩, SecValue.str ""),
         (⟨"player%d.c%d.wl_value%d", [0, 0, 1], []⟩, SecValue.str ""),
         (⟨"player%d.c%d.wl_kind%d", [0, 0, 2], []⟩, SecValue.str ""),
         (⟨"player%d.c%d.wl_value%d", [0, 0, 2], []⟩, SecValue.str "")] ∧
    wl_block "player%d.c%d" [Int.ofNat 0, Int.ofNat 1] cityB3.worklist
        (wlist_max_length plr2.cities)
      = [(⟨"player%d.c%d.wl_kind%d", [0, 1, 0], []⟩, SecValue.str "w"),
         (⟨"player%d.c%d.wl_value%d", [0, 1, 0], []⟩, SecValue.str "Warriors"),
         (⟨"player%d.c%d.wl_kind%d", [0, 1, 1], []⟩, SecValue.str "b"),
         (⟨"player%d.c%d.wl_value%d", [0, 1, 1], []⟩, SecValue.str "Barracks"),
         (⟨"player%d.c%d.wl_kind%d", [0, 1, 2], []⟩, SecValue.str "w"),
         (⟨"player%d.c%d.wl_value%d", [0, 1, 2], []⟩, SecValue.str "Phalanx")] := by
  have h := C6_worklist_rectangular trivWorld plr2 s_ok rfl
    (by
      intro c hc
      rcases List.mem_cons.mp hc with rfl | hc2
      · decide
      · rcases List.mem_cons.mp hc2 with rfl | hc3
        · decide
        · cases hc3)
    (by decide)
  constructor
  · exact (h.2.2 0 city0 (List.mem_cons_self _ _)).trans (by decide)
  · exact (h.2.2 1 cityB3 (List.mem_cons_of_mem _ (List.mem_cons_self _ _))).trans (by decide)

/- =======================================================================
   Claim C7.
   ======================================================================= -/

theorem fc_isprint_ite (c : Prop) [Decidable c] (a b : Char)
    (ha : fc_isprint a = true) (hb : fc_isprint b = true) :
    fc_isprint (if c then a else b) = true := by
  split
  · exact ha
  · exact hb

theorem terrain2char_printable (t : Option String) :
    fc_isprint (terrain2char t) = true := by
  cases t with
  | none => decide
  | some n =>
    rw [terrain2char]
    repeat refine fc_isprint_ite _ _ _ (by decide) ?_
    decide

theorem SMC_go_pres (w : World) (g : Nat → Nat → Char) (t : String) (a : List Int) :
    ∀ (rows : List Nat) (s : Savedata),
      (SAVE_MAP_CHAR_go w g t a rows s).scenario = s.scenario ∧
      (SAVE_MAP_CHAR_go w g t a rows s).save_players = s.save_players ∧
      ∀ e ∈ s.file, e ∈ (SAVE_MAP_CHAR_go w g t a rows s).file := by
  intro rows
  induction rows with
  | nil => exact fun s => ⟨rfl, rfl, fun e he => he⟩
  | cons y rest ih =>
    intro s
    rw [SAVE_MAP_CHAR_go]
    split
    · refine ⟨(ih _).1, (ih _).2.1, fun e he => (ih _).2.2 e ?_⟩
      exact List.mem_append_left _ he
    · exact ⟨rfl, rfl, fun e he => he⟩

theorem SMC_pres (w : World) (g : Nat → Nat → Char) (t : String) (a : List Int)
    (s : Savedata) :
    (SAVE_MAP_CHAR w g t a s).scenario = s.scenario ∧
    (SAVE_MAP_CHAR w g t a s).save_players = s.save_players ∧
    ∀ e ∈ s.file, e ∈ (SAVE_MAP_CHAR w g t a s).file :=
  SMC_go_pres w g t a (List.range w.ysize) s

theorem bases_go_pres (w : World) : ∀ (l : List Nat) (s : Savedata),
    (sg_save_map_tiles_bases_go w l s).scenario = s.scenario ∧
    (sg_save_map_tiles_bases_go w l s).save_players = s.save_players ∧
    ∀ e ∈ s.file, e ∈ (sg_save_map_tiles_bases_go w l s).file := by
  intro l
  induction l with
  | nil => exact fun s => ⟨rfl, rfl, fun e he => he⟩
  | cons j rest ih =>
    intro s
    rw [sg_save_map_tiles_bases_go]
    have hS := SMC_pres w (fun x y => sg_bases_get (w.tiles x y).bases
      (sg_save_bases_mod (num_base_types w) j)) "map.b%02d_%04d" [(j : Int)] s
    split
    · exact ⟨(ih _).1.trans hS.1, (ih _).2.1.trans hS.2.1,
        fun e he => (ih _).2.2 e (hS.2.2 e he)⟩
    · exact ⟨hS.1, hS.2.1, fun e he => hS.2.2 e he⟩

theorem roads_go_pres (w : World) : ∀ (l : List Nat) (s : Savedata),
    (sg_save_map_tiles_roads_go w l s).scenario = s.scenario ∧
    (sg_save_map_tiles_roads_go w l s).save_players = s.save_players ∧
    ∀ e ∈ s.file, e ∈ (sg_save_map_tiles_roads_go w l s).file := by
  intro l
  induction l with
  | nil => exact fun s => ⟨rfl, rfl, fun e he => he⟩
  | cons j rest ih =>
    intro s
    rw [sg_save_map_tiles_roads_go]
    have hS := SMC_pres w (fun x y => sg_roads_get (w.tiles x y).roads
      (sg_save_roads_mod (num_road_types w) j)) "map.r%02d_%04d" [(j : Int)] s
    split
    · exact ⟨(ih _).1.trans hS.1, (ih _).2.1.trans hS.2.1,
        fun e he => (ih _).2.2 e (hS.2.2 e he)⟩
    · exact ⟨hS.1, hS.2.1, fun e he => hS.2.2 e he⟩

theorem specials_go_pres (w : World) (ro : Bool) : ∀ (l : List Nat) (s : Savedata),
    (sg_save_map_tiles_specials_go w ro l s).scenario = s.scenario ∧
    (sg_save_map_tiles_specials_go w ro l s).save_players = s.save_players ∧
    ∀ e ∈ s.file, e ∈ (sg_save_map_tiles_specials_go w ro l s).file := by
  intro l
  induction l with
  | nil => exact fun s => ⟨rfl, rfl, fun e he => he⟩
  | cons j rest ih =>
    intro s
    rw [sg_save_map_tiles_specials_go]
    have hS := SMC_pres w (fun x y => sg_special_get (S_LAST w) (w.tiles x y).special
      (sg_save_specials_mod (S_LAST w) ro w.s_old_river j)) "map.spe%02d_%04d" [(j : Int)] s
    split
    · exact ⟨(ih _).1.trans hS.1, (ih _).2.1.trans hS.2.1,
        fun e he => (ih _).2.2 e (hS.2.2 e he)⟩
    · exact ⟨hS.1, hS.2.1, fun e he => hS.2.2 e he⟩

theorem known_go_pres (w : World) : ∀ (l : List (Nat × Nat)) (s : Savedata),
    (sg_save_map_known_go w l s).scenario = s.scenario ∧
    (sg_save_map_known_go w l s).save_players = s.save_players ∧
    ∀ e ∈ s.file, e ∈ (sg_save_map_known_go w l s).file := by
  intro l
  induction l with
  | nil => exact fun s => ⟨rfl, rfl, fun e he => he⟩
  | cons lj rest ih =>
    intro s
    simp only [sg_save_map_known_go]
    have hS := SMC_pres w (fun x y => bin2ascii_hex (known_val w lj.1 x y) lj.2)
      "map.k%02d_%04d" [((lj.1 * 8 + lj.2 : Nat) : Int)] s
    split
    · split
      · exact ⟨(ih _).1.trans hS.1, (ih _).2.1.trans hS.2.1,
          fun e he => (ih _).2.2 e (hS.2.2 e he)⟩
      · exact ⟨hS.1, hS.2.1, fun e he => hS.2.2 e he⟩
    · exact ih s

theorem mem_replace {f : SecFile} {str : String} {k : SecKey}
    {e : SecKey × SecValue} (he : e ∈ f) (hk : e.1 ≠ k) :
    e ∈ secfile_replace_str f str k := by
  rw [secfile_replace_str]
  split
  · exact List.mem_map.mpr ⟨e, he, by rw [if_neg hk]⟩
  · exact List.mem_append_left _ he

theorem sg_save_scenario_pres (w : World) (s : Savedata) :
    (sg_save_scenario w s).scenario = s.scenario ∧
    (sg_save_scenario w s).save_players = s.save_players ∧
    (sg_save_scenario w s).sg_success = s.sg_success ∧
    ∀ e ∈ s.file, e ∈ (sg_save_scenario w s).file := by
  simp only [sg_save_scenario]
  split
  · exact ⟨rfl, rfl, rfl, fun e he => he⟩
  · split
    · exact ⟨rfl, rfl, rfl, fun e he => by simp [he]⟩
    · exact ⟨rfl, rfl, rfl, fun e he => by simp [he]⟩

theorem sg_save_savefile_options_pres (o : Option String) (s : Savedata) :
    (sg_save_savefile_options o s).scenario = s.scenario ∧
    (sg_save_savefile_options o s).save_players = s.save_players ∧
    (sg_save_savefile_options o s).sg_success = s.sg_success ∧
    ∀ e ∈ s.file, e.1.template ≠ "savefile.options" →
      e ∈ (sg_save_savefile_options o s).file := by
  simp only [sg_save_savefile_options]
  split
  · exact ⟨rfl, rfl, rfl, fun e he _ => he⟩
  · cases o with
    | none => exact ⟨rfl, rfl, rfl, fun e he _ => he⟩
    | some o2 =>
      refine ⟨rfl, rfl, rfl, fun e he ht => ?_⟩
      exact mem_replace he (fun hc => ht (by rw [hc]; rfl))

theorem sg_save_savefile_pres (w : World) (s : Savedata) :
    (sg_save_savefile w s).scenario = s.scenario ∧
    (sg_save_savefile w s).save_players = s.save_players ∧
    (sg_save_savefile w s).sg_success = s.sg_success ∧
    ∀ e ∈ s.file, e.1.template ≠ "savefile.options" →
      e ∈ (sg_save_savefile w s).file := by
  simp only [sg_save_savefile]
  split
  · exact ⟨rfl, rfl, rfl, fun e he _ => he⟩
  · have ho := sg_save_savefile_options_pres (some savefile_options_default) s
    exact ⟨ho.1, ho.2.1, ho.2.2.1, fun e he ht => by
      simp [List.mem_append, ho.2.2.2 e he ht]⟩

theorem sg_save_game_pres (w : World) (s : Savedata) (hsucc : s.sg_success = true) :
    (sg_save_game w s).scenario = s.scenario ∧
    (sg_save_game w s).sg_success = s.sg_success ∧
    (sg_save_game w s).save_players
      = (if !w.game_was_started then false
         else if s.scenario then w.scenario_players else true) ∧
    ∀ e ∈ s.file, e ∈ (sg_save_game w s).file := by
  simp only [sg_save_game, hsucc, Bool.not_true, Bool.false_eq_true, if_false,
    true_and]
  intro e he
  simp [he]

theorem sg_save_random_pres (w : World) (s : Savedata) :
    (sg_save_random w s).scenario = s.scenario ∧
    (sg_save_random w s).save_players = s.save_players ∧
    (sg_save_random w s).sg_success = s.sg_success ∧
    ∀ e ∈ s.file, e ∈ (sg_save_random w s).file := by
  simp only [sg_save_random]
  split
  · exact ⟨rfl, rfl, rfl, fun e he => he⟩
  · split
    · exact ⟨rfl, rfl, rfl, fun e he => by simp [he]⟩
    · exact ⟨rfl, rfl, rfl, fun e he => by simp [he]⟩

theorem sg_save_script_pres (w : World) (s : Savedata) :
    (sg_save_script w s).scenario = s.scenario ∧
    (sg_save_script w s).save_players = s.save_players ∧
    (sg_save_script w s).sg_success = s.sg_success ∧
    ∀ e ∈ s.file, e ∈ (sg_save_script w s).file := by
  simp only [sg_save_script]
  split
  · exact ⟨rfl, rfl, rfl, fun e he => he⟩
  · exact ⟨rfl, rfl, rfl, fun e he => by simp [he]⟩

theorem sg_save_settings_pres (w : World) (s : Savedata) :
    (sg_save_settings w s).scenario = s.scenario ∧
    (sg_save_settings w s).save_players = s.save_players ∧
    (sg_save_settings w s).sg_success = s.sg_success ∧
    ∀ e ∈ s.file, e ∈ (sg_save_settings w s).file := by
  simp only [sg_save_settings]
  split
  · exact ⟨rfl, rfl, rfl, fun e he => he⟩
  · exact ⟨rfl, rfl, rfl, fun e he => by simp [he]⟩

theorem sg_save_map_tiles_pres (w : World) (s : Savedata) :
    (sg_save_map_tiles w s).scenario = s.scenario ∧
    (sg_save_map_tiles w s).save_players = s.save_players ∧
    ∀ e ∈ s.file, e ∈ (sg_save_map_tiles w s).file := by
  simp only [sg_save_map_tiles]
  split
  · exact ⟨rfl, rfl, fun e he => he⟩
  · have hS := SMC_pres w (fun x y => terrain2char (w.tiles x y).terrain) "map.t%04d" [] s
    split
    · exact ⟨hS.1, hS.2.1, fun e he => List.mem_append_left _ (hS.2.2 e he)⟩
    · exact hS

theorem sg_save_map_startpos_pres (w : World) (s : Savedata) :
    (sg_save_map_startpos w s).scenario = s.scenario ∧
    (sg_save_map_startpos w s).save_players = s.save_players ∧
    ∀ e ∈ s.file, e ∈ (sg_save_map_startpos w s).file := by
  simp only [sg_save_map_startpos]
  split
  · exact ⟨rfl, rfl, fun e he => he⟩
  · exact ⟨rfl, rfl, fun e he => he⟩

theorem sg_save_map_tiles_bases_pres (w : World) (s : Savedata) :
    (sg_save_map_tiles_bases w s).scenario = s.scenario ∧
    (sg_save_map_tiles_bases w s).save_players = s.save_players ∧
    ∀ e ∈ s.file, e ∈ (sg_save_map_tiles_bases w s).file := by
  simp only [sg_save_map_tiles_bases]
  split
  · exact ⟨rfl, rfl, fun e he => he⟩
  · exact bases_go_pres w _ s

theorem sg_save_map_tiles_roads_pres (w : World) (s : Savedata) :
    (sg_save_map_tiles_roads w s).scenario = s.scenario ∧
    (sg_save_map_tiles_roads w s).save_players = s.save_players ∧
    ∀ e ∈ s.file, e ∈ (sg_save_map_tiles_roads w s).file := by
  simp only [sg_save_map_tiles_roads]
  split
  · exact ⟨rfl, rfl, fun e he => he⟩
  · exact roads_go_pres w _ s

theorem sg_save_map_tiles_specials_pres (w : World) (ro : Bool) (s : Savedata) :
    (sg_save_map_tiles_specials w ro s).scenario = s.scenario ∧
    (sg_save_map_tiles_specials w ro s).save_players = s.save_players ∧
    ∀ e ∈ s.file, e ∈ (sg_save_map_tiles_specials w ro s).file := by
  simp only [sg_save_map_tiles_specials]
  split
  · exact ⟨rfl, rfl, fun e he => he⟩
  · exact specials_go_pres w ro _ s

theorem sg_save_map_tiles_resources_pres (w : World) (s : Savedata) :
    (sg_save_map_tiles_resources w s).scenario = s.scenario ∧
    (sg_save_map_tiles_resources w s).save_players = s.save_players ∧
    ∀ e ∈ s.file, e ∈ (sg_save_map_tiles_resources w s).file := by
  simp only [sg_save_map_tiles_resources]
  split
  · exact ⟨rfl, rfl, fun e he => he⟩
  · exact SMC_pres w _ "map.res%04d" [] s

theorem sg_save_map_owner_pres (w : World) (s : Savedata) :
    (sg_save_map_owner w s).scenario = s.scenario ∧
    (sg_save_map_owner w s).save_players = s.save_players ∧
    ∀ e ∈ s.file, e ∈ (sg_save_map_owner w s).file := by
  simp only [sg_save_map_owner]
  split
  · exact ⟨rfl, rfl, fun e he => he⟩
  · split
    · exact ⟨rfl, rfl, fun e he => he⟩
    · exact ⟨rfl, rfl, fun e he => by simp [he]⟩

theorem sg_save_map_worked_pres (w : World) (s : Savedata) :
    (sg_save_map_worked w s).scenario = s.scenario ∧
    (sg_save_map_worked w s).save_players = s.save_players ∧
    ∀ e ∈ s.file, e ∈ (sg_save_map_worked w s).file := by
  simp only [sg_save_map_worked]
  split
  · exact ⟨rfl, rfl, fun e he => he⟩
  · split
    · exact ⟨rfl, rfl, fun e he => he⟩
    · exact ⟨rfl, rfl, fun e he => by simp [he]⟩

theorem sg_save_map_known_pres (w : World) (s : Savedata) :
    (sg_save_map_known w s).scenario = s.scenario ∧
    (sg_save_map_known w s).save_players = s.save_players ∧
    ∀ e ∈ s.file, e ∈ (sg_save_map_known w s).file := by
  simp only [sg_save_map_known]
  split
  · exact ⟨rfl, rfl, fun e he => he⟩
  · split
    · exact ⟨rfl, rfl, fun e he => by simp [he]⟩
    · have hg := known_go_pres w (known_line_pairs w)
        { s with file := s.file ++ [eBool "game.save_known" [] true] }
      exact ⟨hg.1, hg.2.1, fun e he => hg.2.2 e (List.mem_append_left _ he)⟩

theorem sg_save_map_pres (w : World) (s : Savedata) :
    (sg_save_map w s).scenario = s.scenario ∧
    (sg_save_map w s).save_players = s.save_players ∧
    ∀ e ∈ s.file, e.1.template ≠ "savefile.options" →
      e ∈ (sg_save_map w s).file := by
  simp only [sg_save_map]
  split
  · exact ⟨rfl, rfl, fun e he _ => he⟩
  · split
    · exact ⟨rfl, rfl, fun e he _ => he⟩
    · set t0 : Savedata := { s with file := s.file ++ [eBool "map.have_huts" [] true] } with ht0
      have h1 := sg_save_map_tiles_pres w t0
      set t1 := sg_save_map_tiles w t0 with ht1
      have h2 := sg_save_map_startpos_pres w t1
      set t2 := sg_save_map_startpos w t1 with ht2
      have h3 := sg_save_map_tiles_bases_pres w t2
      set t3 := sg_save_map_tiles_bases w t2 with ht3
      have h4 := sg_save_map_tiles_roads_pres w t3
      set t4 := sg_save_map_tiles_roads w t3 with ht4
      have h5 := sg_save_savefile_options_pres (some " specials") t4
      set t5 := sg_save_savefile_options (some " specials") t4 with ht5
      have h6 := sg_save_map_tiles_specials_pres w false t5
      set t6 := sg_save_map_tiles_specials w false t5 with ht6
      have h7 := sg_save_map_tiles_resources_pres w t6
      set t7 := sg_save_map_tiles_resources w t6 with ht7
      have h8 := sg_save_map_owner_pres w t7
      set t8 := sg_save_map_owner w t7 with ht8
      have h9 := sg_save_map_worked_pres w t8
      set t9 := sg_save_map_worked w t8 with ht9
      have h10 := sg_save_map_known_pres w t9
      refine ⟨?_, ?_, ?_⟩
      · rw [h10.1, h9.1, h8.1, h7.1, h6.1, h5.1, h4.1, h3.1, h2.1, h1.1]
      · rw [h10.2.1, h9.2.1, h8.2.1, h7.2.1, h6.2.1, h5.2.1, h4.2.1, h3.2.1,
          h2.2.1, h1.2.1]
      · intro e he ht
        refine h10.2.2 e (h9.2.2 e (h8.2.2 e (h7.2.2 e (h6.2.2 e
          (h5.2.2.2 e (h4.2.2 e (h3.2.2 e (h2.2.2 e (h1.2.2 e ?_)))) ht)))))
        exact List.mem_append_left _ he

theorem sg_save_players_noop (w : World) (s : Savedata)
    (hscn : s.scenario = true) (hsp : s.save_players = false) :
    sg_save_players w s = s := by
  rw [sg_save_players]
  split
  · rfl
  · rw [if_pos (by simp [hscn, hsp])]

theorem sg_save_mapimg_mem (w : World) (s : Savedata) (e : SecKey × SecValue)
    (he : e ∈ s.file) : e ∈ (sg_save_mapimg w s).file := by
  simp only [sg_save_mapimg]
  split
  · exact he
  · simp [he]

theorem sg_save_sanitycheck_id (w : World) (s : Savedata) :
    sg_save_sanitycheck w s = s := by
  rw [sg_save_sanitycheck]
  split <;> rfl

theorem SMC_go_mem (w : World) (g : Nat → Nat → Char) (t : String) (a : List Int)
    (hpr : ∀ x y, fc_isprint (g x y) = true) :
    ∀ (rows : List Nat) (s : Savedata), ∀ y ∈ rows,
      ((⟨t, a ++ [(y : Int)], []⟩ : SecKey), SecValue.str ⟨save_map_line w g y⟩)
        ∈ (SAVE_MAP_CHAR_go w g t a rows s).file := by
  intro rows
  induction rows with
  | nil => intro s y hy; cases hy
  | cons y0 rest ih =>
    intro s y hy
    simp only [SAVE_MAP_CHAR_go]
    have hall : (save_map_line w g y0).all fc_isprint = true := by
      rw [List.all_eq_true]
      intro c hc
      rw [save_map_line] at hc
      obtain ⟨x, _, hx⟩ := List.mem_map.mp hc
      rw [← hx]
      exact hpr x y0
    rw [if_pos hall]
    rcases List.mem_cons.mp hy with h | h
    · subst h
      refine (SMC_go_pres w g t a rest _).2.2 _ ?_
      simp [secfile_insert]
    · exact ih _ y h

/-- C7: for a save invoked with the scenario flag set and scenario player
data disabled, the Players stage leaves the document (and the whole save
state) unchanged — it returns at entry — while the Map stage still writes
the terrain line of every map row into the final document. -/
theorem C7_scenario_suppression (w : World) (file : SecFile) (reason : String)
    (hsp : w.scenario_players = false) (hmap : w.map_is_empty = false) :
    sg_save_players w (pre7 w file reason) = pre7 w file reason ∧
    ∀ y, y < w.ysize →
      ((⟨"map.t%04d", [(y : Int)], []⟩ : SecKey),
        SecValue.str ⟨save_map_line w (fun a b => terrain2char (w.tiles a b).terrain) y⟩)
        ∈ (savegame2_save_real w file reason true).file := by
  set s0 : Savedata := { savedata_new file reason true with sg_success := true } with hs0
  have h1 := sg_save_scenario_pres w s0
  set s1 := sg_save_scenario w s0 with hs1e
  have h2 := sg_save_savefile_pres w s1
  set s2 := sg_save_savefile w s1 with hs2e
  have hscn2 : s2.scenario = true := by rw [h2.1, h1.1]; rfl
  have hsucc2 : s2.sg_success = true := by rw [h2.2.2.1, h1.2.2.1]
  have h3 := sg_save_game_pres w s2 hsucc2
  set s3 := sg_save_game w s2 with hs3e
  have hsp3 : s3.save_players = false := by
    rw [h3.2.2.1, hscn2]
    cases w.game_was_started <;> simp [hsp]
  have hscn3 : s3.scenario = true := by rw [h3.1]; exact hscn2
  have hsucc3 : s3.sg_success = true := by rw [h3.2.1]; exact hsucc2
  have h4 := sg_save_random_pres w s3
  set s4 := sg_save_random w s3 with hs4e
  have h5 := sg_save_script_pres w s4
  set s5 := sg_save_script w s4 with hs5e
  have h6 := sg_save_settings_pres w s5
  set s6 := sg_save_settings w s5 with hs6e
  have hscn6 : s6.scenario = true := by rw [h6.1, h5.1, h4.1]; exact hscn3
  have hsp6 : s6.save_players = false := by rw [h6.2.1, h5.2.1, h4.2.1]; exact hsp3
  have hsucc6 : s6.sg_success = true := by
    rw [h6.2.2.1, h5.2.2.1, h4.2.2.1]; exact hsucc3
  have hmp := sg_save_map_pres w s6
  have hpre : pre7 w file reason = sg_save_map w s6 := rfl
  have hscnp : (pre7 w file reason).scenario = true := by rw [hpre, hmp.1]; exact hscn6
  have hspp : (pre7 w file reason).save_players = false := by
    rw [hpre, hmp.2.1]; exact hsp6
  refine ⟨sg_save_players_noop w _ hscnp hspp, ?_⟩
  intro y hy
  have hreal : savegame2_save_real w file reason true
      = sg_save_sanitycheck w (sg_save_mapimg w (sg_save_players w
          (pre7 w file reason))) := rfl
  rw [hreal, sg_save_sanitycheck_id, sg_save_players_noop w _ hscnp hspp]
  refine sg_save_mapimg_mem w _ _ ?_
  rw [hpre]
  simp only [sg_save_map, hsucc6, hmap, Bool.not_true, Bool.false_eq_true, if_false]
  refine (sg_save_map_known_pres w _).2.2 _ ((sg_save_map_worked_pres w _).2.2 _
    ((sg_save_map_owner_pres w _).2.2 _ ((sg_save_map_tiles_resources_pres w _).2.2 _
    ((sg_save_map_tiles_specials_pres w false _).2.2 _
    ((sg_save_savefile_options_pres (some " specials") _).2.2.2 _
    ((sg_save_map_tiles_roads_pres w _).2.2 _ ((sg_save_map_tiles_bases_pres w _).2.2 _
    ((sg_save_map_startpos_pres w _).2.2 _ ?_)))
      (show ("map.t%04d" : String) ≠ "savefile.options" by decide))))))
  simp only [sg_save_map_tiles, hsucc6, Bool.not_true, Bool.false_eq_true, if_false]
  have hm := SMC_go_mem w (fun a b => terrain2char (w.tiles a b).terrain)
    "map.t%04d" [] (fun a b => terrain2char_printable _) (List.range w.ysize)
    { s6 with sg_success := true, file := s6.file ++ [eBool "map.have_huts" [] true] }
    y (List.mem_range.mpr hy)
  split
  · exact List.mem_append_left _ hm
  · exact hm

theorem C7_scenario_suppression_witness :
    mapWorld7.scenario_players = false ∧ mapWorld7.map_is_empty = false ∧
    (sg_save_players mapWorld7 (pre7 mapWorld7 [] "r") = pre7 mapWorld7 [] "r" ∧
     ∀ y, y < mapWorld7.ysize →
       ((⟨"map.t%04d", [(y : Int)], []⟩ : SecKey),
         SecValue.str ⟨save_map_line mapWorld7
           (fun a b => terrain2char (mapWorld7.tiles a b).terrain) y⟩)
         ∈ (savegame2_save_real mapWorld7 [] "r" true).file) :=
  ⟨rfl, rfl, C7_scenario_suppression mapWorld7 [] "r" rfl rfl⟩

/- =======================================================================
   Claim C8.
   ======================================================================= -/

theorem ord_assign_from_untouched :
    ∀ (l : List Nat) (j : Nat) (f : Nat → Nat) (u : Nat), u ∉ l →
      ord_assign_from j l f u = f u := by
  intro l
  induction l with
  | nil => intro j f u _; rfl
  | cons v rest ih =>
    intro j f u hu
    rw [ord_assign_from, ih]
    · exact Function.update_noteq (fun hx => hu (List.mem_cons.mpr (Or.inl hx))) j f
    · exact fun hx => hu (List.mem_cons_of_mem v hx)

theorem ord_assign_from_get :
    ∀ (l : List Nat), l.Nodup →
      ∀ (j : Nat) (f : Nat → Nat) (i : Nat) (h : i < l.length),
        ord_assign_from j l f (l.get ⟨i, h⟩) = j + i := by
  intro l
  induction l with
  | nil => intro _ j f i h; exact absurd h (by simp)
  | cons v rest ih =>
    intro hnd j f i h
    cases i with
    | zero =>
      show ord_assign_from (j + 1) rest (Function.update f v j) v = j + 0
      rw [ord_assign_from_untouched rest (j + 1) _ v (List.nodup_cons.mp hnd).1,
        Function.update_same]
      omega
    | succ i2 =>
      show ord_assign_from (j + 1) rest (Function.update f v j)
        (rest.get ⟨i2, Nat.lt_of_succ_lt_succ h⟩) = j + (i2 + 1)
      rw [ih (List.nodup_cons.mp hnd).2 (j + 1) _ i2 (Nat.lt_of_succ_lt_succ h)]
      omega

theorem ord_zero_untouched :
    ∀ (l : List Nat) (f : Nat → Nat) (u : Nat), u ∉ l → ord_zero l f u = f u := by
  intro l
  induction l with
  | nil => intro f u _; rfl
  | cons v rest ih =>
    intro f u hu
    rw [ord_zero, ih]
    · exact Function.update_noteq (fun hx => hu (List.mem_cons.mpr (Or.inl hx))) 0 f
    · exact fun hx => hu (List.mem_cons_of_mem v hx)

theorem ord_zero_mem :
    ∀ (l : List Nat) (f : Nat → Nat) (u : Nat), u ∈ l → ord_zero l f u = 0 := by
  intro l
  induction l with
  | nil => intro f u hu; cases hu
  | cons v rest ih =>
    intro f u hu
    rw [ord_zero]
    by_cases hr : u ∈ rest
    · exact ih _ u hr
    · rcases List.mem_cons.mp hu with hv | hv
      · rw [ord_zero_untouched rest _ u hr, hv, Function.update_same]
      · exact absurd hv hr

theorem ord_city_cities_untouched :
    ∀ (cs : List City) (f : Nat → Nat) (u : Nat),
      u ∉ cs.flatMap (fun c => c.units_supported) → ord_city_cities cs f u = f u := by
  intro cs
  induction cs with
  | nil => intro f u _; rfl
  | cons c rest ih =>
    intro f u hu
    rw [List.flatMap_cons, List.mem_append] at hu
    push_neg at hu
    rw [ord_city_cities, ih _ u hu.2]
    exact ord_assign_from_untouched _ 0 f u hu.1

theorem ord_city_cities_get :
    ∀ (cs : List City), (cs.flatMap (fun c => c.units_supported)).Nodup →
      ∀ c ∈ cs, ∀ (f : Nat → Nat) (i : Nat) (h : i < c.units_supported.length),
        ord_city_cities cs f (c.units_supported.get ⟨i, h⟩) = i := by
  intro cs
  induction cs with
  | nil => intro _ c hc; cases hc
  | cons c0 rest ih =>
    intro hnd c hc f i h
    rw [List.flatMap_cons] at hnd
    obtain ⟨h0, hrest, hdisj⟩ := List.nodup_append.mp hnd
    rcases List.mem_cons.mp hc with hcc | hcc
    · subst hcc
      rw [ord_city_cities]
      have humem : c.units_supported.get ⟨i, h⟩ ∈ c.units_supported :=
        List.mem_iff_get.mpr ⟨⟨i, h⟩, rfl⟩
      rw [ord_city_cities_untouched rest _ _ (hdisj humem)]
      have := ord_assign_from_get c.units_supported h0 0 f i h
      omega
    · rw [ord_city_cities]
      exact ih hrest c hcc _ i h

theorem ord_city_players_untouched :
    ∀ (ps : List Player) (f : Nat → Nat) (u : Nat),
      u ∉ ps.flatMap (fun p => p.units.map (fun un => un.id)) →
      u ∉ ps.flatMap (fun p => p.cities.flatMap (fun c => c.units_supported)) →
      ord_city_players ps f u = f u := by
  intro ps
  induction ps with
  | nil => intro f u _ _; rfl
  | cons p rest ih =>
    intro f u hu hs
    rw [List.flatMap_cons, List.mem_append] at hu hs
    push_neg at hu hs
    rw [ord_city_players, ih _ u hu.2 hs.2, ord_city_cities_untouched _ _ u hs.1]
    exact ord_zero_untouched _ f u hu.1

theorem ord_city_players_get :
    ∀ (ps : List Player),
      (ps.flatMap (fun p => p.cities.flatMap (fun c => c.units_supported))).Nodup →
      (ps.flatMap (fun p => p.units.map (fun un => un.id))).Nodup →
      (∀ p ∈ ps, ∀ c ∈ p.cities, ∀ u ∈ c.units_supported,
        u ∈ p.units.map (fun un => un.id)) →
      ∀ p ∈ ps, ∀ c ∈ p.cities, ∀ (f : Nat → Nat) (i : Nat)
          (h : i < c.units_supported.length),
        ord_city_players ps f (c.units_supported.get ⟨i, h⟩) = i := by
  intro ps
  induction ps with
  | nil => intro _ _ _ p hp; cases hp
  | cons p0 rest ih =>
    intro H1 H2 H3 p hp c hc f i h
    rw [List.flatMap_cons] at H1 H2
    obtain ⟨H1a, H1r, H1d⟩ := List.nodup_append.mp H1
    obtain ⟨H2a, H2r, H2d⟩ := List.nodup_append.mp H2
    rcases List.mem_cons.mp hp with hpp | hpp
    · subst hpp
      rw [ord_city_players]
      have humem : c.units_supported.get ⟨i, h⟩ ∈ c.units_supported :=
        List.mem_iff_get.mpr ⟨⟨i, h⟩, rfl⟩
      have huflat : c.units_supported.get ⟨i, h⟩
          ∈ p.cities.flatMap (fun c => c.units_supported) :=
        List.mem_flatMap.mpr ⟨c, hc, humem⟩
      have huunits : c.units_supported.get ⟨i, h⟩
          ∈ p.units.map (fun un => un.id) :=
        H3 p (List.mem_cons_self p rest) c hc _ humem
      rw [ord_city_players_untouched rest _ _ (H2d huunits) (H1d huflat)]
      exact ord_city_cities_get p.cities H1a c hc _ i h
    · rw [ord_city_players]
      exact ih H1r H2r
        (fun q hq => H3 q (List.mem_cons_of_mem p0 hq)) p hpp c hc _ i h

theorem ord_city_players_unsupported :
    ∀ (ps : List Player),
      (ps.flatMap (fun p => p.units.map (fun un => un.id))).Nodup →
      ∀ p ∈ ps, ∀ un ∈ p.units,
        un.id ∉ ps.flatMap (fun q => q.cities.flatMap (fun c => c.units_supported)) →
        ∀ f : Nat → Nat, ord_city_players ps f un.id = 0 := by
  intro ps
  induction ps with
  | nil => intro _ p hp; cases hp
  | cons p0 rest ih =>
    intro H2 p hp un hun hns f
    rw [List.flatMap_cons] at H2
    obtain ⟨H2a, H2r, H2d⟩ := List.nodup_append.mp H2
    rw [List.flatMap_cons, List.mem_append] at hns
    push_neg at hns
    rcases List.mem_cons.mp hp with hpp | hpp
    · subst hpp
      rw [ord_city_players]
      have hid : un.id ∈ p.units.map (fun u2 => u2.id) :=
        List.mem_map.mpr ⟨un, hun, rfl⟩
      rw [ord_city_players_untouched rest _ _ (H2d hid) hns.2,
        ord_city_cities_untouched _ _ _ hns.1]
      exact ord_zero_mem _ f _ hid
    · rw [ord_city_players]
      exact ih H2r p hpp un hun hns.2 _

theorem ord_map_tiles_untouched (w : World) :
    ∀ (l : List (Nat × Nat)) (f : Nat → Nat) (u : Nat),
      u ∉ l.flatMap (fun xy => (w.tiles xy.1 xy.2).units) →
      ord_map_tiles w l f u = f u := by
  intro l
  induction l with
  | nil => intro f u _; rfl
  | cons xy rest ih =>
    intro f u hu
    rw [List.flatMap_cons, List.mem_append] at hu
    push_neg at hu
    rw [ord_map_tiles, ih _ u hu.2]
    exact ord_assign_from_untouched _ 0 f u hu.1

theorem ord_map_tiles_get (w : World) :
    ∀ (l : List (Nat × Nat)),
      (l.flatMap (fun xy => (w.tiles xy.1 xy.2).units)).Nodup →
      ∀ xy ∈ l, ∀ (f : Nat → Nat) (i : Nat)
          (h : i < (w.tiles xy.1 xy.2).units.length),
        ord_map_tiles w l f ((w.tiles xy.1 xy.2).units.get ⟨i, h⟩) = i := by
  intro l
  induction l with
  | nil => intro _ xy hxy; cases hxy
  | cons xy0 rest ih =>
    intro hnd xy hxy f i h
    rw [List.flatMap_cons] at hnd
    obtain ⟨h0, hrest, hdisj⟩ := List.nodup_append.mp hnd
    rcases List.mem_cons.mp hxy with hxx | hxx
    · subst hxx
      rw [ord_map_tiles]
      have humem : (w.tiles xy.1 xy.2).units.get ⟨i, h⟩ ∈ (w.tiles xy.1 xy.2).units :=
        List.mem_iff_get.mpr ⟨⟨i, h⟩, rfl⟩
      rw [ord_map_tiles_untouched w rest _ _ (hdisj humem)]
      have := ord_assign_from_get _ h0 0 f i h
      omega
    · rw [ord_map_tiles]
      exact ih hrest xy hxx _ i h

theorem writeDet_ord_assign_from :
    ∀ (l : List Nat) (j : Nat), WriteDet (ord_assign_from j l) := by
  intro l
  induction l with
  | nil => intro j f g u; left; exact ⟨rfl, rfl⟩
  | cons v rest ih =>
    intro j f g u
    rcases ih (j + 1) (Function.update f v j) (Function.update g v j) u with ⟨h1, h2⟩ | h
    · by_cases hv : u = v
      · right
        rw [ord_assign_from, ord_assign_from, h1, h2, hv,
          Function.update_same, Function.update_same]
      · left
        rw [ord_assign_from, ord_assign_from, h1, h2,
          Function.update_noteq hv, Function.update_noteq hv]
        exact ⟨rfl, rfl⟩
    · right
      rw [ord_assign_from, ord_assign_from]
      exact h

theorem writeDet_ord_zero : ∀ (l : List Nat), WriteDet (ord_zero l) := by
  intro l
  induction l with
  | nil => intro f g u; left; exact ⟨rfl, rfl⟩
  | cons v rest ih =>
    intro f g u
    rcases ih (Function.update f v 0) (Function.update g v 0) u with ⟨h1, h2⟩ | h
    · by_cases hv : u = v
      · right
        rw [ord_zero, ord_zero, h1, h2, hv, Function.update_same, Function.update_same]
      · left
        rw [ord_zero, ord_zero, h1, h2,
          Function.update_noteq hv, Function.update_noteq hv]
        exact ⟨rfl, rfl⟩
    · right
      rw [ord_zero, ord_zero]
      exact h

theorem WriteDet.comp {L1 L2 : (Nat → Nat) → (Nat → Nat)}
    (h1 : WriteDet L1) (h2 : WriteDet L2) : WriteDet (fun f => L2 (L1 f)) := by
  intro f g u
  rcases h2 (L1 f) (L1 g) u with ⟨ha, hb⟩ | h
  · rcases h1 f g u with ⟨hc, hd⟩ | h
    · left
      exact ⟨ha.trans hc, hb.trans hd⟩
    · right
      show L2 (L1 f) u = L2 (L1 g) u
      rw [ha, hb, h]
  · right
    exact h

theorem writeDet_ord_city_cities : ∀ (cs : List City), WriteDet (ord_city_cities cs) := by
  intro cs
  induction cs with
  | nil => intro f g u; left; exact ⟨rfl, rfl⟩
  | cons c rest ih =>
    intro f g u
    rw [ord_city_cities]
    exact WriteDet.comp (writeDet_ord_assign_from c.units_supported 0) ih f g u

theorem writeDet_ord_city_players : ∀ (ps : List Player), WriteDet (ord_city_players ps) := by
  intro ps
  induction ps with
  | nil => intro f g u; left; exact ⟨rfl, rfl⟩
  | cons p rest ih =>
    intro f g u
    rw [ord_city_players]
    exact WriteDet.comp (WriteDet.comp (writeDet_ord_zero (p.units.map (fun un => un.id)))
      (writeDet_ord_city_cities p.cities)) ih f g u

theorem writeDet_ord_map_tiles (w : World) :
    ∀ (l : List (Nat × Nat)), WriteDet (ord_map_tiles w l) := by
  intro l
  induction l with
  | nil => intro f g u; left; exact ⟨rfl, rfl⟩
  | cons xy rest ih =>
    intro f g u
    rw [ord_map_tiles]
    exact WriteDet.comp (writeDet_ord_assign_from ((w.tiles xy.1 xy.2).units) 0) ih f g u

theorem WriteDet.idem {L : (Nat → Nat) → (Nat → Nat)} (h : WriteDet L)
    (f : Nat → Nat) : L (L f) = L f := by
  funext u
  rcases h (L f) f u with ⟨h1, _⟩ | h2
  · exact h1
  · exact h2

/-- C8: after unit_ordering_calc (with globally duplicate-free supported
lists, duplicate-free player unit lists, supported units owned by their
player, and duplicate-free tile occupant lists), every city's supported
units receive ord_city ordinals 0..n-1 in list order, every tile's
occupants receive ord_map ordinals 0..m-1 in list order, a player's unit
supported by no city has ord_city 0, and running the pass a second time
changes nothing. -/
theorem C8_unit_ordering (w : World)
    (H1 : (w.players.flatMap (fun p =>
      p.cities.flatMap (fun c => c.units_supported))).Nodup)
    (H2 : (w.players.flatMap (fun p => p.units.map (fun un => un.id))).Nodup)
    (H3 : ∀ p ∈ w.players, ∀ c ∈ p.cities, ∀ u ∈ c.units_supported,
      u ∈ p.units.map (fun un => un.id))
    (H4 : ((map_tile_list w).flatMap (fun xy => (w.tiles xy.1 xy.2).units)).Nodup) :
    (∀ p ∈ w.players, ∀ c ∈ p.cities, ∀ (i : Nat) (h : i < c.units_supported.length),
      (unit_ordering_calc w).1 (c.units_supported.get ⟨i, h⟩) = i) ∧
    (∀ xy ∈ map_tile_list w, ∀ (i : Nat) (h : i < (w.tiles xy.1 xy.2).units.length),
      (unit_ordering_calc w).2 ((w.tiles xy.1 xy.2).units.get ⟨i, h⟩) = i) ∧
    (∀ p ∈ w.players, ∀ un ∈ p.units,
      un.id ∉ w.players.flatMap (fun q => q.cities.flatMap (fun c => c.units_supported)) →
      (unit_ordering_calc w).1 un.id = 0) ∧
    ord_city_players w.players (unit_ordering_calc w).1 = (unit_ordering_calc w).1 ∧
    ord_map_tiles w (map_tile_list w) (unit_ordering_calc w).2 = (unit_ordering_calc w).2 := by
  refine ⟨?_, ?_, ?_, ?_, ?_⟩
  · intro p hp c hc i h
    exact ord_city_players_get w.players H1 H2 H3 p hp c hc w.ord_city_init i h
  · intro xy hxy i h
    exact ord_map_tiles_get w (map_tile_list w) H4 xy hxy w.ord_map_init i h
  · intro p hp un hun hns
    exact ord_city_players_unsupported w.players H2 p hp un hun hns w.ord_city_init
  · exact WriteDet.idem (writeDet_ord_city_players w.players) w.ord_city_init
  · exact WriteDet.idem (writeDet_ord_map_tiles w (map_tile_list w)) w.ord_map_init

theorem C8_unit_ordering_witness :
    ((worldW8.players.flatMap (fun p =>
      p.cities.flatMap (fun c => c.units_supported))).Nodup ∧
     (worldW8.players.flatMap (fun p => p.units.map (fun un => un.id))).Nodup ∧
     (∀ p ∈ worldW8.players, ∀ c ∈ p.cities, ∀ u ∈ c.units_supported,
       u ∈ p.units.map (fun un => un.id)) ∧
     ((map_tile_list worldW8).flatMap (fun xy =>
       (worldW8.tiles xy.1 xy.2).units)).Nodup) ∧
    ((∀ p ∈ worldW8.players, ∀ c ∈ p.cities,
        ∀ (i : Nat) (h : i < c.units_supported.length),
      (unit_ordering_calc worldW8).1 (c.units_supported.get ⟨i, h⟩) = i) ∧
     (∀ xy ∈ map_tile_list worldW8,
        ∀ (i : Nat) (h : i < (worldW8.tiles xy.1 xy.2).units.length),
      (unit_ordering_calc worldW8).2 ((worldW8.tiles xy.1 xy.2).units.get ⟨i, h⟩) = i) ∧
     (∀ p ∈ worldW8.players, ∀ un ∈ p.units,
       un.id ∉ worldW8.players.flatMap (fun q =>
         q.cities.flatMap (fun c => c.units_supported)) →
       (unit_ordering_calc worldW8).1 un.id = 0) ∧
     ord_city_players worldW8.players (unit_ordering_calc worldW8).1
       = (unit_ordering_calc worldW8).1 ∧
     ord_map_tiles worldW8 (map_tile_list worldW8) (unit_ordering_calc worldW8).2
       = (unit_ordering_calc worldW8).2) :=
  ⟨⟨by decide, by decide, by decide, by decide⟩,
   C8_unit_ordering worldW8 (by decide) (by decide) (by decide) (by decide)⟩
